import Mathlib

/-!
Shallow embedding of the gsap-block-animator PHP validation and animation
layer (Property_Validator, Animation_Validator, Animation_Config,
FromTo_Animation_Strategy, Set_Animation_Strategy), together with theorems
settling the specification claims about them.

PHP dynamic values are modelled by the inductive type `PHPValue`; PHP
floats are modelled as exact rationals (the usual shallow-embedding
approximation), and float-to-string conversion is modelled as plain
decimal rendering.  PHP's `preg_match` calls in the source use fixed
anchored patterns, which are embedded as executable matchers over
`List Char`.  All files in the source carry `declare(strict_types=1)`,
so a call passing a non-string where a `string` parameter is declared
raises `TypeError`; this is modelled with `Except PhpError`.
-/

set_option maxHeartbeats 1000000
set_option maxRecDepth 100000

-- Batteries marks the arithmetic on `Rat` irreducible, which would keep
-- `decide` and `rfl` from evaluating the embedded definitions on concrete
-- inputs; restore the default reducibility locally.
set_option allowUnsafeReducibility true
attribute [local semireducible] Rat.add Rat.mul Rat.sub Rat.inv Rat.div Rat.ofScientific

/-- Errors a strict-typed PHP call can raise at a call boundary. -/
inductive PhpError where
  | typeError
  deriving DecidableEq, Repr

/-- A PHP array key: either an integer key or a string key. -/
inductive PHPKey where
  | i (n : Int)
  | s (st : String)
  deriving DecidableEq, Repr

/-- A PHP value (null, bool, int, float-as-rational, string, array). -/
inductive PHPValue where
  | vNull
  | vBool (b : Bool)
  | vInt (n : Int)
  | vFloat (q : ℚ)
  | vString (st : String)
  | vArray (entries : List (PHPKey × PHPValue))
  deriving Repr

open PHPValue

abbrev PHPArr := List (PHPKey × PHPValue)

/-- First entry of the assoc list with the given key, as PHP array read does. -/
def lookupArr (a : PHPArr) (k : PHPKey) : Option PHPValue :=
  match a.find? (fun p => decide (p.1 = k)) with
  | some p => some p.2
  | none => none

/-- PHP `isset($a[k])`: the key exists and its value is not null. -/
def lookupIsset (a : PHPArr) (k : PHPKey) : Option PHPValue :=
  match lookupArr a k with
  | some vNull => none
  | some v => some v
  | none => none

/-- PHP null-coalescing read `$a[k] ?? d`. -/
def getQQ (a : PHPArr) (k : PHPKey) (d : PHPValue) : PHPValue :=
  match lookupIsset a k with
  | some v => v
  | none => d

/-- PHP `$a[k]` as used inside `empty()`: missing key behaves as null. -/
def getOrNull (a : PHPArr) (k : PHPKey) : PHPValue :=
  match lookupArr a k with
  | some v => v
  | none => vNull

/-! ### Character classes and the PHP numeric-string automaton -/

/-- Whitespace characters PHP's numeric-string scanner skips. -/
def isWsC (c : Char) : Bool :=
  c = ' ' || c = '\t' || c = '\n' || c = '\r' || c = '\x0b' || c = '\x0c'

/-- ASCII decimal digit test. -/
def isDigitC (c : Char) : Bool :=
  '0' ≤ c && c ≤ '9'

/-- Character classes relevant to PHP numeric-string syntax. -/
inductive NumCClass where
  | ws
  | digit
  | sign
  | dot
  | expo
  | other
  deriving DecidableEq, Repr

/-- Classify a character for the numeric-string automaton. -/
def numCClass (c : Char) : NumCClass :=
  if isWsC c then .ws
  else if isDigitC c then .digit
  else if c = '+' || c = '-' then .sign
  else if c = '.' then .dot
  else if c = 'e' || c = 'E' then .expo
  else .other

/-- Transition table of the PHP 8 numeric-string automaton.
States: 0 start, 1 after sign, 2 integer digits, 3 lone dot, 4 fraction
digits (dot-first form), 5 digits-then-dot form, 6 after exponent marker,
7 trailing whitespace, 8 after exponent sign, 9 dead, 10 exponent digits. -/
def numStepC (s : Fin 11) (c : NumCClass) : Fin 11 :=
  match s, c with
  | 0, .ws => 0
  | 0, .sign => 1
  | 0, .digit => 2
  | 0, .dot => 3
  | 1, .digit => 2
  | 1, .dot => 3
  | 2, .digit => 2
  | 2, .dot => 5
  | 2, .expo => 6
  | 2, .ws => 7
  | 3, .digit => 4
  | 4, .digit => 4
  | 4, .expo => 6
  | 4, .ws => 7
  | 5, .digit => 5
  | 5, .expo => 6
  | 5, .ws => 7
  | 6, .digit => 10
  | 6, .sign => 8
  | 7, .ws => 7
  | 8, .digit => 10
  | 10, .digit => 10
  | 10, .ws => 7
  | _, _ => 9

/-- One automaton step on a character. -/
def numStep (s : Fin 11) (c : Char) : Fin 11 :=
  numStepC s (numCClass c)

/-- Run the automaton over a character list from a given state. -/
def numRun (s : Fin 11) (l : List Char) : Fin 11 :=
  l.foldl numStep s

/-- Accepting states of the numeric-string automaton. -/
def numAccept (s : Fin 11) : Bool :=
  s = 2 || s = 4 || s = 5 || s = 7 || s = 10

/-- PHP 8 `is_numeric` on a string. -/
def phpIsNumericStr (l : List Char) : Bool :=
  numAccept (numRun 0 l)

/-- PHP `is_numeric` on a value: ints, floats and numeric strings. -/
def isNumericVal : PHPValue → Bool
  | vInt _ => true
  | vFloat _ => true
  | vString st => phpIsNumericStr st.data
  | _ => false

/-! ### Numeric parsing and rendering -/

/-- Digit list to natural number. -/
def digitsToNat (l : List Char) : Nat :=
  l.foldl (fun acc c => 10 * acc + (c.toNat - 48)) 0

/-- Kernel-friendly power of ten as a rational. -/
def powTen (n : Nat) : ℚ :=
  ((10 ^ n : Nat) : ℚ)

/-- Kernel-friendly floor of a rational. -/
def ratFloor (q : ℚ) : Int :=
  q.num.fdiv q.den

/-- Fractional digit list to a rational in `[0, 1)`. -/
def fracToRat (l : List Char) : ℚ :=
  (digitsToNat l : ℚ) / powTen l.length

/-- Leading-prefix float parse, as PHP's `(float)` string cast (strtod):
skips leading whitespace, then optional sign, digits, fraction and a
well-formed exponent; anything after the prefix is ignored and a string
with no leading digits parses to 0. -/
def strToFloatPHP (l0 : List Char) : ℚ :=
  let l1 := l0.dropWhile isWsC
  let sgn : ℚ := match l1 with
    | '-' :: _ => -1
    | _ => 1
  let l2 := match l1 with
    | '-' :: r => r
    | '+' :: r => r
    | _ => l1
  let ip := l2.takeWhile isDigitC
  let l3 := l2.dropWhile isDigitC
  let fp := match l3 with
    | '.' :: r => r.takeWhile isDigitC
    | _ => []
  let l4 := match l3 with
    | '.' :: r => r.dropWhile isDigitC
    | _ => l3
  if ip = [] && fp = [] then 0
  else
    let mant : ℚ := (digitsToNat ip : ℚ) + fracToRat fp
    let scale : ℚ := match l4 with
      | 'e' :: r | 'E' :: r =>
        let (eneg, r2) : Bool × List Char := match r with
          | '-' :: r2 => (true, r2)
          | '+' :: r2 => (false, r2)
          | _ => (false, r)
        let ed := r2.takeWhile isDigitC
        if ed = [] then 1
        else if eneg then 1 / powTen (digitsToNat ed)
        else powTen (digitsToNat ed)
      | _ => 1
    sgn * mant * scale

/-- PHP `(float)` cast. -/
def phpToFloat : PHPValue → ℚ
  | vNull => 0
  | vBool b => if b then 1 else 0
  | vInt n => (n : ℚ)
  | vFloat q => q
  | vString st => strToFloatPHP st.data
  | vArray a => if a.isEmpty then 0 else 1

/-- Truncation toward zero, as PHP's float-to-int conversion. -/
def ratTrunc (q : ℚ) : Int :=
  if 0 ≤ q then ratFloor q else -ratFloor (-q)

/-- Leading-prefix integer parse, as PHP's `(int)` string cast. -/
def strToIntPHP (l0 : List Char) : Int :=
  let l1 := l0.dropWhile isWsC
  let sgn : Int := match l1 with
    | '-' :: _ => -1
    | _ => 1
  let l2 := match l1 with
    | '-' :: r => r
    | '+' :: r => r
    | _ => l1
  sgn * (digitsToNat (l2.takeWhile isDigitC) : Int)

/-- PHP `(int)` cast. -/
def phpToInt : PHPValue → Int
  | vNull => 0
  | vBool b => if b then 1 else 0
  | vInt n => n
  | vFloat q => ratTrunc q
  | vString st => strToIntPHP st.data
  | vArray a => if a.isEmpty then 0 else 1

/-- Decimal digit character for a value below 10. -/
def digitChar10 (n : Nat) : Char :=
  Char.ofNat (48 + n)

/-- Fractional part of a nonnegative rational as decimal digits (at most
`fuel` digits; PHP floats always terminate within the cap used here). -/
def fracDigits : Nat → ℚ → List Char
  | 0, _ => []
  | fuel + 1, r =>
    if r = 0 then []
    else
      let d := (ratFloor (r * 10)).toNat
      digitChar10 d :: fracDigits fuel (r * 10 - (d : ℚ))

/-- Decimal rendering of a nonnegative rational. -/
def ratToStrNN (q : ℚ) : String :=
  let ip := ratFloor q
  let fr := q - (ip : ℚ)
  if fr = 0 then toString ip
  else toString ip ++ "." ++ String.mk (fracDigits 30 fr)

/-- Decimal rendering of a rational, modelling PHP float-to-string
conversion (without the scientific-notation forms PHP uses at extreme
magnitudes). -/
def ratToStr (q : ℚ) : String :=
  if q < 0 then "-" ++ ratToStrNN (-q) else ratToStrNN q

/-- PHP `(string)` cast. -/
def phpToString : PHPValue → String
  | vNull => ""
  | vBool b => if b then "1" else ""
  | vInt n => toString n
  | vFloat q => ratToStr q
  | vString st => st
  | vArray _ => "Array"

/-- PHP `empty()` / falsiness of a value. -/
def phpEmptyVal : PHPValue → Bool
  | vNull => true
  | vBool b => !b
  | vInt n => n = 0
  | vFloat q => q = 0
  | vString st => st = "" || st = "0"
  | vArray a => a.isEmpty

/-- PHP `(bool)` cast (truthiness). -/
def phpTruthy (v : PHPValue) : Bool :=
  !phpEmptyVal v

/-- ASCII lower-casing of a character, as PHP `strtolower` in the C locale. -/
def toLowerAscii (c : Char) : Char :=
  if 'A' ≤ c && c ≤ 'Z' then Char.ofNat (c.toNat + 32) else c

/-- ASCII lower-casing of a string. -/
def lowerStr (st : String) : String :=
  String.mk (st.data.map toLowerAscii)

/-! ### Anchored pattern matchers for the fixed regexes in the source -/

/-- Strip one leading minus sign, for the optional `-?` of the patterns. -/
def stripNeg : List Char → List Char
  | '-' :: r => r
  | l => l

/-- Matcher for the numeric core `\d+(\.\d+)?` of the CSS unit patterns. -/
def decCore (l : List Char) : Bool :=
  let ds := l.takeWhile isDigitC
  let rest := l.dropWhile isDigitC
  !ds.isEmpty &&
    match rest with
    | [] => true
    | '.' :: r2 => !r2.isEmpty && (r2.dropWhile isDigitC).isEmpty
    | _ => false

/-- Matcher for `-?\d+(\.\d+)?`, the plain signed decimal core. -/
def decMatch (l : List Char) : Bool :=
  decCore (stripNeg l)

/-- Units of `Property_Validator::CSS_UNIT_PATTERN`. -/
def fullUnits : List (List Char) :=
  ["px".data, "em".data, "rem".data, "%".data, "vw".data, "vh".data,
   "vmin".data, "vmax".data, "ex".data, "ch".data, "pt".data, "pc".data,
   "in".data, "cm".data, "mm".data]

/-- Units of the strategies' and `Animation_Validator`'s CSS unit patterns. -/
def smallUnits : List (List Char) :=
  ["px".data, "em".data, "rem".data, "%".data, "vw".data, "vh".data]

/-- Whether the list splits as a decimal core followed by one of the units. -/
def unitAny (units : List (List Char)) (l : List Char) : Bool :=
  units.any fun u => u.isSuffixOf l && decCore (l.take (l.length - u.length))

/-- `Property_Validator::CSS_UNIT_PATTERN` (`-?\d+(\.\d+)?(px|…|mm)$`). -/
def cssUnitMatchFull (st : String) : Bool :=
  unitAny fullUnits (stripNeg st.data)

/-- `POSITIVE_CSS_UNIT_PATTERN` (`\d+(\.\d+)?(px|em|rem|%|vw|vh)$`). -/
def cssUnitMatchPos (st : String) : Bool :=
  unitAny smallUnits st.data

/-- `SIGNED_CSS_UNIT_PATTERN` (`-?\d+(\.\d+)?(px|em|rem|%|vw|vh)$`). -/
def cssUnitMatchSigned (st : String) : Bool :=
  unitAny smallUnits (stripNeg st.data)

/-- Hexadecimal digit test. -/
def isHexDigitC (c : Char) : Bool :=
  isDigitC c || ('a' ≤ c && c ≤ 'f') || ('A' ≤ c && c ≤ 'F')

/-- `HEX_COLOR_PATTERN` (`^#([0-9a-fA-F]{3}|[0-9a-fA-F]{6})$`). -/
def hexColorMatch (st : String) : Bool :=
  match st.data with
  | '#' :: r => (r.length = 3 || r.length = 6) && r.all isHexDigitC
  | _ => false

/-- Consume `rgba?\(` or `hsla?\(` style heads: the given tag letters,
an optional `a`, then `(`; returns the remainder. -/
def stripFnHead (tag : List Char) (l : List Char) : Option (List Char) :=
  if tag.isPrefixOf l then
    match l.drop tag.length with
    | 'a' :: '(' :: r => some r
    | '(' :: r => some r
    | _ => none
  else none

/-- Consume `\s*`. -/
def skipWs (l : List Char) : List Char :=
  l.dropWhile isWsC

/-- Consume `\d+`; fails when no digit is present. -/
def eatDigits1 (l : List Char) : Option (List Char) :=
  let ds := l.takeWhile isDigitC
  if ds.isEmpty then none else some (l.dropWhile isDigitC)

/-- Consume one expected character. -/
def eatChar (c : Char) : List Char → Option (List Char)
  | x :: r => if x = c then some r else none
  | [] => none

/-- Consume the optional alpha component `(?:,\s*[01](?:\.\d+)?)?` and the
closing `\s*\)`, requiring the end of the string. -/
def eatAlphaAndClose (l0 : List Char) : Bool :=
  let finish (l : List Char) : Bool :=
    match skipWs l with
    | [')'] => true
    | _ => false
  match l0 with
  | ',' :: r =>
    (match skipWs r with
     | x :: r2 =>
       if x = '0' || x = '1' then
         (match r2 with
          | '.' :: r3 =>
            (match eatDigits1 r3 with
             | some r4 => finish r4
             | none => false)
          | _ => finish r2)
       else false
     | [] => false)
  | _ => finish l0

/-- One `\s*\d+\s*` component followed by an expected separator handled by
the caller. -/
def eatNumComp (l : List Char) : Option (List Char) :=
  match eatDigits1 (skipWs l) with
  | some r => some (skipWs r)
  | none => none

/-- `Property_Validator::RGB_COLOR_PATTERN`
(`^rgba?\(\s*\d+\s*,\s*\d+\s*,\s*\d+\s*(?:,\s*[01](?:\.\d+)?)?\s*\)$`). -/
def rgbColorMatchPV (st : String) : Bool :=
  match stripFnHead "rgb".data st.data with
  | none => false
  | some l1 =>
    match eatNumComp l1 with
    | none => false
    | some l2 =>
      match eatChar ',' l2 with
      | none => false
      | some l3 =>
        match eatNumComp l3 with
        | none => false
        | some l4 =>
          match eatChar ',' l4 with
          | none => false
          | some l5 =>
            match eatNumComp l5 with
            | none => false
            | some l6 => eatAlphaAndClose l6

/-- One `\s*\d+%\s*` component of the HSL pattern. -/
def eatPctComp (l : List Char) : Option (List Char) :=
  match eatDigits1 (skipWs l) with
  | some r =>
    (match eatChar '%' r with
     | some r2 => some (skipWs r2)
     | none => none)
  | none => none

/-- `Property_Validator::HSL_COLOR_PATTERN`
(`^hsla?\(\s*\d+\s*,\s*\d+%\s*,\s*\d+%\s*(?:,\s*[01](?:\.\d+)?)?\s*\)$`). -/
def hslColorMatchPV (st : String) : Bool :=
  match stripFnHead "hsl".data st.data with
  | none => false
  | some l1 =>
    match eatNumComp l1 with
    | none => false
    | some l2 =>
      match eatChar ',' l2 with
      | none => false
      | some l3 =>
        match eatPctComp l3 with
        | none => false
        | some l4 =>
          match eatChar ',' l4 with
          | none => false
          | some l5 =>
            match eatPctComp l5 with
            | none => false
            | some l6 => eatAlphaAndClose l6

/-- The loose `^rgba?\([^)]+\)$` pattern used by `Animation_Validator`
and the strategies. -/
def rgbColorMatchLoose (st : String) : Bool :=
  match stripFnHead "rgb".data st.data with
  | none => false
  | some body =>
    let inner := body.take (body.length - 1)
    match body.getLast? with
    | some ')' => !inner.isEmpty && inner.all (fun c => c ≠ ')')
    | _ => false

/-- Substring containment over character lists. -/
def containsSeq (needle : List Char) : List Char → Bool
  | [] => needle.isEmpty
  | c :: r => needle.isPrefixOf (c :: r) || containsSeq needle r

/-- Case-insensitive containment of a literal pattern, as
`preg_match('/' . preg_quote(p) . '/i', s)`. -/
def ciContains (st p : String) : Bool :=
  containsSeq (lowerStr p).data (lowerStr st).data

/-! ### Property_Validator (src/includes/validation/property-validator.php) -/

namespace Property_Validator

/-- Color keywords accepted by `validate_css_color`. -/
def colorKeywords : List String :=
  ["transparent", "inherit", "initial", "unset", "currentcolor",
   "black", "white", "red", "green", "blue", "yellow", "cyan", "magenta"]

/-- `Property_Validator::validate_css_color`. -/
def validate_css_color (v : String) : Bool :=
  hexColorMatch v || rgbColorMatchPV v || hslColorMatchPV v ||
    colorKeywords.contains (lowerStr v)

/-- `Property_Validator::validate_css_unit`. -/
def validate_css_unit (v : String) : Bool :=
  cssUnitMatchFull v

/-- `Property_Validator::validate_numeric_range`. -/
def validate_numeric_range (v : PHPValue) (mn mx : ℚ) : Bool :=
  if !isNumericVal v then false
  else
    let numeric := phpToFloat v
    mn ≤ numeric && numeric ≤ mx

/-- The literal substrings of the forbidden-pattern loop in
`validate_css_selector`.  Each entry is passed through `preg_quote`
before being used as a regex, so every entry — including the intended
event-handler regex `on\w+\s*=` — matches only its literal text. -/
def forbiddenPatterns : List String :=
  ["javascript:", "data:", "vbscript:", "on\\w+\\s*=", "<script", "</script"]

/-- `Property_Validator::validate_css_selector`. -/
def validate_css_selector (st : String) : Bool :=
  if phpEmptyVal (vString st) || st.length > 500 then false
  else !(forbiddenPatterns.any fun p => ciContains st p)

/-- `Property_Validator::sanitize_css_unit`. -/
def sanitize_css_unit (v : PHPValue) (default_unit : String) : String :=
  if isNumericVal v then phpToString v ++ default_unit
  else
    match v with
    | PHPValue.vString st => if validate_css_unit st then st else "0" ++ default_unit
    | _ => "0" ++ default_unit

/-- `Property_Validator::sanitize_numeric_value`. -/
def sanitize_numeric_value (v : PHPValue) (mn mx default : ℚ) : ℚ :=
  if !isNumericVal v then default
  else max mn (min mx (phpToFloat v))

/-- `Property_Validator::sanitize_css_color`. -/
def sanitize_css_color (v : String) (default : String) : String :=
  if validate_css_color v then v else default

/-- `Property_Validator::sanitize_animation_property_value`. -/
def sanitize_animation_property_value (property : String) (v : PHPValue) : PHPValue :=
  if property = "x" || property = "y" then vString (sanitize_css_unit v "px")
  else if property = "rotation" then vFloat (sanitize_numeric_value v (-360) 360 0)
  else if property = "scale" then vFloat (sanitize_numeric_value v (1/10) 10 1)
  else if property = "opacity" then vFloat (sanitize_numeric_value v 0 1 1)
  else if property = "backgroundColor" || property = "color" then
    match v with
    | PHPValue.vString st => vString (sanitize_css_color st "transparent")
    | _ => vString "transparent"
  else if property = "width" || property = "height" then vString (sanitize_css_unit v "px")
  else v

end Property_Validator

/-! ### Animation_Validator (src/includes/validation/animation-validator.php) -/

namespace Animation_Validator

/-- The `types` rule list of `get_validation_rules`. -/
def ruleTypes : List String := ["to", "from", "fromTo", "set"]

/-- The `triggers` rule list of `get_validation_rules`. -/
def ruleTriggers : List String := ["pageload", "scroll", "click", "hover"]

/-- The `properties` rule list of `get_validation_rules`. -/
def ruleProperties : List String :=
  ["x", "y", "rotation", "scale", "opacity", "backgroundColor", "color", "width", "height"]

/-- The `eases` rule list of `get_validation_rules`. -/
def ruleEases : List String :=
  ["none", "power1.out", "power2.out", "power3.out", "back.out", "elastic.out",
   "bounce.out", "power1.in", "power2.in", "power3.in", "power1.inOut",
   "power2.inOut", "power3.inOut"]

/-- `Animation_Validator::validate_enabled`, returning its added errors. -/
def validate_enabled (data : PHPArr) : List String :=
  match lookupIsset data (.s "enabled") with
  | none => ["enabled: Field is required"]
  | some v =>
    match v with
    | vBool _ => []
    | _ => ["enabled: Must be a boolean value"]

/-- `Animation_Validator::validate_type`. -/
def validate_type (data : PHPArr) : List String :=
  match lookupIsset data (.s "type") with
  | none => ["type: Animation type is required"]
  | some v =>
    match v with
    | vString st =>
      if ruleTypes.contains st then []
      else ["type: Invalid type. Allowed: to, from, fromTo, set"]
    | _ => ["type: Must be a string"]

/-- `Animation_Validator::validate_trigger`. -/
def validate_trigger (data : PHPArr) : List String :=
  match lookupIsset data (.s "trigger") with
  | none => ["trigger: Trigger type is required"]
  | some v =>
    match v with
    | vString st =>
      if ruleTriggers.contains st then []
      else ["trigger: Invalid trigger. Allowed: pageload, scroll, click, hover"]
    | _ => ["trigger: Must be a string"]

/-- `Animation_Validator::validate_movement_property`. -/
def validate_movement_property (key : String) (v : PHPValue) : List String :=
  if isNumericVal v then []
  else
    match v with
    | vString st =>
      if cssUnitMatchSigned st then []
      else ["properties." ++ key ++ ": Must be a number or valid CSS unit"]
    | _ => ["properties." ++ key ++ ": Must be a number or valid CSS unit"]

/-- `Animation_Validator::validate_rotation_property`. -/
def validate_rotation_property (key : String) (v : PHPValue) : List String :=
  if !isNumericVal v then ["properties." ++ key ++ ": Must be a number"]
  else
    let numeric := phpToFloat v
    if numeric < -360 || 360 < numeric then
      ["properties." ++ key ++ ": Must be between -360 and 360 degrees"]
    else []

/-- `Animation_Validator::validate_scale_property`. -/
def validate_scale_property (key : String) (v : PHPValue) : List String :=
  if !isNumericVal v then ["properties." ++ key ++ ": Must be a number"]
  else
    let numeric := phpToFloat v
    if numeric < 1/10 || 10 < numeric then
      ["properties." ++ key ++ ": Must be between 0.1 and 10"]
    else []

/-- `Animation_Validator::validate_opacity_property`. -/
def validate_opacity_property (key : String) (v : PHPValue) : List String :=
  if !isNumericVal v then ["properties." ++ key ++ ": Must be a number"]
  else
    let numeric := phpToFloat v
    if numeric < 0 || 1 < numeric then
      ["properties." ++ key ++ ": Must be between 0 and 1"]
    else []

/-- The four color keywords of `validate_color_property`. -/
def colorKeywords4 : List String := ["transparent", "inherit", "initial", "unset"]

/-- `Animation_Validator::validate_color_property` (own loose RGB pattern). -/
def validate_color_property (key : String) (v : PHPValue) : List String :=
  match v with
  | vString st =>
    if hexColorMatch st || rgbColorMatchLoose st || colorKeywords4.contains (lowerStr st) then []
    else ["properties." ++ key ++ ": Must be a valid color (hex, rgb, or keyword)"]
  | _ => ["properties." ++ key ++ ": Must be a string"]

/-- `Animation_Validator::validate_size_property`. -/
def validate_size_property (key : String) (v : PHPValue) : List String :=
  if isNumericVal v then []
  else
    match v with
    | vString st =>
      if cssUnitMatchPos st then []
      else ["properties." ++ key ++ ": Must be a positive number or valid CSS unit"]
    | _ => ["properties." ++ key ++ ": Must be a positive number or valid CSS unit"]

/-- `Animation_Validator::validate_property` (the `$key` parameter is
declared `string`). -/
def validate_property (key : String) (v : PHPValue) : List String :=
  if !ruleProperties.contains key then
    ["properties." ++ key ++
      ": Invalid property. Allowed: x, y, rotation, scale, opacity, backgroundColor, color, width, height"]
  else if key = "x" || key = "y" then validate_movement_property key v
  else if key = "rotation" then validate_rotation_property key v
  else if key = "scale" then validate_scale_property key v
  else if key = "opacity" then validate_opacity_property key v
  else if key = "backgroundColor" || key = "color" then validate_color_property key v
  else if key = "width" || key = "height" then validate_size_property key v
  else []

/-- The `foreach` of `validate_properties`: under `strict_types=1`, passing
an integer array key to the `string $key` parameter of `validate_property`
raises `TypeError`. -/
def validatePropsEntries : List (PHPKey × PHPValue) → Except PhpError (List String)
  | [] => .ok []
  | (PHPKey.i _, _) :: _ => .error .typeError
  | (PHPKey.s key, v) :: rest =>
    match validatePropsEntries rest with
    | .error e => .error e
    | .ok es => .ok (validate_property key v ++ es)

/-- `Animation_Validator::validate_properties`. -/
def validate_properties (data : PHPArr) : Except PhpError (List String) :=
  match lookupIsset data (.s "properties") with
  | none => .ok ["properties: Properties are required"]
  | some v =>
    match v with
    | vArray props =>
      if phpTruthy (getQQ data (.s "enabled") (vBool false)) && props.isEmpty then
        .ok ["properties: At least one property is required when animation is enabled"]
      else validatePropsEntries props
    | _ => .ok ["properties: Must be an array"]

/-- `Animation_Validator::validate_duration` (of the timing sub-array). -/
def validate_duration (timing : PHPArr) : List String :=
  match lookupIsset timing (.s "duration") with
  | none => ["timing.duration: Duration is required"]
  | some v =>
    if !isNumericVal v then ["timing.duration: Must be a number"]
    else
      let duration := phpToFloat v
      if duration ≤ 0 || 10 < duration then
        ["timing.duration: Must be between 0.1 and 10 seconds"]
      else []

/-- `Animation_Validator::validate_delay`. -/
def validate_delay (timing : PHPArr) : List String :=
  match lookupIsset timing (.s "delay") with
  | none => []
  | some v =>
    if !isNumericVal v then ["timing.delay: Must be a number"]
    else
      let delay := phpToFloat v
      if delay < 0 || 5 < delay then ["timing.delay: Must be between 0 and 5 seconds"]
      else []

/-- `Animation_Validator::validate_repeat` (`!is_int && !is_numeric`
collapses to `!is_numeric` since PHP ints are numeric). -/
def validate_repeat (timing : PHPArr) : List String :=
  match lookupIsset timing (.s "repeat") with
  | none => []
  | some v =>
    if !isNumericVal v then ["timing.repeat: Must be an integer"]
    else
      let rep := phpToInt v
      if rep < 0 || 100 < rep then ["timing.repeat: Must be between 0 and 100"]
      else []

/-- `Animation_Validator::validate_yoyo`. -/
def validate_yoyo (timing : PHPArr) : List String :=
  match lookupIsset timing (.s "yoyo") with
  | none => []
  | some v =>
    match v with
    | vBool _ => []
    | _ => ["timing.yoyo: Must be a boolean"]

/-- `Animation_Validator::validate_ease`. -/
def validate_ease (timing : PHPArr) : List String :=
  match lookupIsset timing (.s "ease") with
  | none => ["timing.ease: Ease function is required"]
  | some v =>
    match v with
    | vString st =>
      if ruleEases.contains st then []
      else ["timing.ease: Invalid ease function. Allowed: none, power1.out, power2.out, power3.out, back.out, elastic.out, bounce.out, power1.in, power2.in, power3.in, power1.inOut, power2.inOut, power3.inOut"]
    | _ => ["timing.ease: Must be a string"]

/-- `Animation_Validator::validate_timing`. -/
def validate_timing (data : PHPArr) : List String :=
  match lookupIsset data (.s "timing") with
  | none => ["timing: Timing configuration is required"]
  | some v =>
    match v with
    | vArray timing =>
      validate_duration timing ++ validate_delay timing ++ validate_repeat timing ++
        validate_yoyo timing ++ validate_ease timing
    | _ => ["timing: Must be an array"]

/-- `Animation_Validator::validate_selector`. -/
def validate_selector (data : PHPArr) : List String :=
  if (lookupIsset data (.s "selector")).isNone || phpEmptyVal (getOrNull data (.s "selector")) then []
  else
    match getOrNull data (.s "selector") with
    | vString st => if 200 < st.length then ["selector: Must be less than 200 characters"] else []
    | _ => ["selector: Must be a string"]

/-- `Animation_Validator::validate`: runs the six section validators in
order, accumulating error strings; the result is the pair of the boolean
result and the accumulated `errors` array.  The `TypeError` that
`validate_properties` can raise propagates. -/
def validate (data : PHPArr) : Except PhpError (Bool × List String) :=
  match validate_properties data with
  | .error e => .error e
  | .ok propErrors =>
    let errors :=
      validate_enabled data ++ validate_type data ++ validate_trigger data ++
        propErrors ++ validate_timing data ++ validate_selector data
    .ok (errors.isEmpty, errors)

end Animation_Validator

/-! ### Animation_Config value object (src/unnamed/part_010) -/

namespace Animation_Config

/-- Allowed animation types of `Animation_Config::sanitize_type`. -/
def allowedTypes : List String := ["to", "from", "fromTo", "set"]

/-- Allowed triggers of `Animation_Config::sanitize_trigger`. -/
def allowedTriggers : List String := ["pageload", "scroll", "click", "hover"]

/-- Allowed eases of `Animation_Config::sanitize_ease` (same list as the
strategies use). -/
def allowedEases : List String :=
  ["none", "power1.out", "power2.out", "power3.out", "back.out", "elastic.out",
   "bounce.out", "power1.in", "power2.in", "power3.in", "power1.inOut",
   "power2.inOut", "power3.inOut"]

/-- `Animation_Config::sanitize_type` (string parameter). -/
def sanitize_type (ty : String) : String :=
  if allowedTypes.contains ty then ty else "to"

/-- `Animation_Config::sanitize_trigger` (string parameter). -/
def sanitize_trigger (tr : String) : String :=
  if allowedTriggers.contains tr then tr else "pageload"

/-- `Animation_Config::sanitize_ease` (string parameter). -/
def sanitize_ease (e : String) : String :=
  if allowedEases.contains e then e else "power1.out"

/-- PHP `(array)` cast, as used for `properties` and `timing`. -/
def phpToArr : PHPValue → PHPArr
  | vArray a => a
  | vNull => []
  | v => [(.i 0, v)]

end Animation_Config

/-- The state of a constructed `Animation_Config` value object. -/
structure AnimationConfig where
  enabled : Bool
  type : String
  trigger : String
  properties : PHPArr
  duration : ℚ
  delay : ℚ
  repeatCount : Int
  yoyo : Bool
  ease : String
  selector : Option String
  deriving Repr

namespace Animation_Config

/-- `Animation_Config::__construct`.  The private sanitizers `sanitize_type`,
`sanitize_trigger` and `sanitize_ease` declare `string` parameters, so under
`strict_types=1` a non-string (after `??` defaulting) raises `TypeError`. -/
def mk (config : PHPArr) : Except PhpError AnimationConfig :=
  match getQQ config (.s "type") (vString "to") with
  | vString tyRaw =>
    match getQQ config (.s "trigger") (vString "pageload") with
    | vString trRaw =>
      let timing := phpToArr (getQQ config (.s "timing") (vArray []))
      match getQQ timing (.s "ease") (vString "power1.out") with
      | vString easeRaw =>
        .ok
          { enabled := phpTruthy (getQQ config (.s "enabled") (vBool false)),
            type := sanitize_type tyRaw,
            trigger := sanitize_trigger trRaw,
            properties := phpToArr (getQQ config (.s "properties") (vArray [])),
            duration := max (1/10) (phpToFloat (getQQ timing (.s "duration") (vFloat (1/2)))),
            delay := max 0 (phpToFloat (getQQ timing (.s "delay") (vInt 0))),
            repeatCount := max 0 (phpToInt (getQQ timing (.s "repeat") (vInt 0))),
            yoyo := phpTruthy (getQQ timing (.s "yoyo") (vBool false)),
            ease := sanitize_ease easeRaw,
            selector :=
              if phpEmptyVal (getOrNull config (.s "selector")) then none
              else some (phpToString (getOrNull config (.s "selector"))) }
      | _ => .error .typeError
    | _ => .error .typeError
  | _ => .error .typeError

/-- `Animation_Config::to_array`. -/
def to_array (c : AnimationConfig) : PHPValue :=
  vArray
    [(.s "enabled", vBool c.enabled),
     (.s "type", vString c.type),
     (.s "trigger", vString c.trigger),
     (.s "properties", vArray c.properties),
     (.s "timing", vArray
       [(.s "duration", vFloat c.duration),
        (.s "delay", vFloat c.delay),
        (.s "repeat", vInt c.repeatCount),
        (.s "yoyo", vBool c.yoyo),
        (.s "ease", vString c.ease)]),
     (.s "selector", match c.selector with
       | some st => vString st
       | none => vNull)]

end Animation_Config

/-! ### FromTo_Animation_Strategy (src/unnamed/part_008) -/

namespace FromTo_Strategy

/-- Allow-listed property keys of `FromTo_Animation_Strategy::is_valid_property`. -/
def allowedProperties : List String :=
  ["x", "y", "rotation", "scale", "opacity", "backgroundColor", "color", "width", "height"]

/-- `FromTo_Animation_Strategy::is_valid_property` (string key parameter). -/
def is_valid_property (key : String) (v : PHPValue) : Bool :=
  allowedProperties.contains key && !phpEmptyVal v

/-- Parse `MOVEMENT_UNIT_PATTERN` (`^(-?\d+(?:\.\d+)?)(px|em|rem|%|vw|vh)$`),
returning the numeric capture as a rational and the unit capture. -/
def parseMovement (st : String) : Option (ℚ × List Char) :=
  let l := st.data
  match smallUnits.find? (fun u => u.isSuffixOf l && decMatch (l.take (l.length - u.length))) with
  | some u => some (strToFloatPHP (l.take (l.length - u.length)), u)
  | none => none

/-- `FromTo_Animation_Strategy::calculate_opposite_movement`. -/
def calculate_opposite_movement (v : PHPValue) : String :=
  if isNumericVal v then ratToStr (-(phpToFloat v)) ++ "px"
  else
    match v with
    | vString st =>
      match parseMovement st with
      | some (q, u) => ratToStr (-q) ++ String.mk u
      | none => "0px"
    | _ => "0px"

/-- `FromTo_Animation_Strategy::calculate_opposite_rotation`. -/
def calculate_opposite_rotation (v : PHPValue) : ℚ :=
  let numeric := if isNumericVal v then phpToFloat v else 0
  if 0 < numeric then numeric - 360 else numeric + 360

/-- `FromTo_Animation_Strategy::calculate_opposite_scale`. -/
def calculate_opposite_scale (v : PHPValue) : ℚ :=
  let numeric := if isNumericVal v then phpToFloat v else 1
  if 1 < numeric then 1/10 else 2

/-- `FromTo_Animation_Strategy::calculate_opposite_opacity`. -/
def calculate_opposite_opacity (v : PHPValue) : ℚ :=
  let numeric := if isNumericVal v then phpToFloat v else 1
  if 1/2 < numeric then 0 else 1

/-- `FromTo_Animation_Strategy::generate_from_value`. -/
def generate_from_value (key : String) (v : PHPValue) : PHPValue :=
  if key = "x" || key = "y" then vString (calculate_opposite_movement v)
  else if key = "rotation" then vFloat (calculate_opposite_rotation v)
  else if key = "scale" then vFloat (calculate_opposite_scale v)
  else if key = "opacity" then vFloat (calculate_opposite_opacity v)
  else if key = "backgroundColor" || key = "color" then vString "transparent"
  else if key = "width" || key = "height" then vString "0px"
  else v

/-- `FromTo_Animation_Strategy::sanitize_movement_value`. -/
def sanitize_movement_value (v : PHPValue) : String :=
  if isNumericVal v then phpToString v ++ "px"
  else
    match v with
    | vString st => if cssUnitMatchSigned st then st else "0px"
    | _ => "0px"

/-- The strategies' shared `sanitize_numeric_value` (no default argument;
non-numeric input clamps 0). -/
def sanitize_numeric_value (v : PHPValue) (mn mx : ℚ) : ℚ :=
  let numeric := if isNumericVal v then phpToFloat v else 0
  max mn (min mx numeric)

/-- The strategies' `sanitize_color_value` (hex, loose rgb, else transparent). -/
def sanitize_color_value (v : PHPValue) : String :=
  match v with
  | vString st =>
    if hexColorMatch st then st
    else if rgbColorMatchLoose st then st
    else "transparent"
  | _ => "transparent"

/-- The strategies' `sanitize_size_value` (numbers are clamped below at 0,
positive CSS units pass, everything else becomes `auto`). -/
def sanitize_size_value (v : PHPValue) : String :=
  if isNumericVal v then ratToStr (max 0 (phpToFloat v)) ++ "px"
  else
    match v with
    | vString st => if cssUnitMatchPos st then st else "auto"
    | _ => "auto"

/-- `FromTo_Animation_Strategy::sanitize_property_value`. -/
def sanitize_property_value (key : String) (v : PHPValue) : PHPValue :=
  if key = "x" || key = "y" then vString (sanitize_movement_value v)
  else if key = "rotation" then vFloat (sanitize_numeric_value v (-360) 360)
  else if key = "scale" then vFloat (sanitize_numeric_value v (1/10) 10)
  else if key = "opacity" then vFloat (sanitize_numeric_value v 0 1)
  else if key = "backgroundColor" || key = "color" then vString (sanitize_color_value v)
  else if key = "width" || key = "height" then vString (sanitize_size_value v)
  else v

/-- The `foreach` of `prepare_from_properties`: skips entries rejected by
`is_valid_property`; an integer key raises `TypeError` at the strict-typed
call boundary. -/
def prepare_from_entries : List (PHPKey × PHPValue) → Except PhpError PHPArr
  | [] => .ok []
  | (PHPKey.i _, _) :: _ => .error .typeError
  | (PHPKey.s key, v) :: rest =>
    match prepare_from_entries rest with
    | .error e => .error e
    | .ok r =>
      .ok (if is_valid_property key v then (PHPKey.s key, generate_from_value key v) :: r else r)

/-- The `foreach` of `prepare_to_properties`. -/
def prepare_to_entries : List (PHPKey × PHPValue) → Except PhpError PHPArr
  | [] => .ok []
  | (PHPKey.i _, _) :: _ => .error .typeError
  | (PHPKey.s key, v) :: rest =>
    match prepare_to_entries rest with
    | .error e => .error e
    | .ok r =>
      .ok (if is_valid_property key v then (PHPKey.s key, sanitize_property_value key v) :: r else r)

/-- `FromTo_Animation_Strategy::prepare_from_properties`. -/
def prepare_from_properties (c : AnimationConfig) : Except PhpError PHPArr :=
  prepare_from_entries c.properties

/-- `FromTo_Animation_Strategy::prepare_to_properties`. -/
def prepare_to_properties (c : AnimationConfig) : Except PhpError PHPArr :=
  prepare_to_entries c.properties

/-- `FromTo_Animation_Strategy::sanitize_ease` (same list as the config). -/
def sanitize_ease (e : String) : String :=
  if Animation_Config.allowedEases.contains e then e else "power1.out"

/-- `FromTo_Animation_Strategy::prepare_timing`. -/
def prepare_timing (c : AnimationConfig) : PHPArr :=
  [(.s "duration", vFloat (max (1/10) c.duration)),
   (.s "delay", vFloat (max 0 c.delay)),
   (.s "repeat", vInt (max 0 c.repeatCount)),
   (.s "yoyo", vBool c.yoyo),
   (.s "ease", vString (sanitize_ease c.ease))]

/-- `FromTo_Animation_Strategy::generate_animation_data`. -/
def generate_animation_data (c : AnimationConfig) : Except PhpError PHPValue :=
  match prepare_from_properties c with
  | .error e => .error e
  | .ok fp =>
    match prepare_to_properties c with
    | .error e => .error e
    | .ok tp =>
      .ok (vArray
        [(.s "type", vString "fromTo"),
         (.s "fromProperties", vArray fp),
         (.s "toProperties", vArray tp),
         (.s "timing", vArray (prepare_timing c)),
         (.s "trigger", vString c.trigger)])

/-- `FromTo_Animation_Strategy::validate_config`. -/
def validate_config (c : AnimationConfig) : List String :=
  (if c.properties.isEmpty then ["FromTo animation requires at least one property to animate"] else []) ++
    (if c.duration ≤ 0 then ["Animation duration must be greater than 0"] else [])

end FromTo_Strategy

/-! ### Set_Animation_Strategy (src/unnamed/part_009) -/

namespace Set_Strategy

/-- Allow-listed property keys of `Set_Animation_Strategy::is_valid_property`. -/
def allowedProperties : List String :=
  ["x", "y", "rotation", "scale", "opacity", "backgroundColor", "color",
   "width", "height", "display", "visibility", "zIndex"]

/-- `Set_Animation_Strategy::is_valid_property` (string key parameter). -/
def is_valid_property (key : String) (v : PHPValue) : Bool :=
  allowedProperties.contains key && !phpEmptyVal v

/-- `Set_Animation_Strategy::sanitize_display_value`. -/
def sanitize_display_value (v : PHPValue) : String :=
  let allowed := ["block", "inline", "inline-block", "flex", "inline-flex",
                  "grid", "inline-grid", "table", "table-cell", "none"]
  match v with
  | vString st => if allowed.contains st then st else "block"
  | _ => "block"

/-- `Set_Animation_Strategy::sanitize_visibility_value`. -/
def sanitize_visibility_value (v : PHPValue) : String :=
  let allowed := ["visible", "hidden", "collapse"]
  match v with
  | vString st => if allowed.contains st then st else "visible"
  | _ => "visible"

/-- `Set_Animation_Strategy::sanitize_z_index_value`. -/
def sanitize_z_index_value (v : PHPValue) : Int :=
  if isNumericVal v then max (-999) (min 999 (phpToInt v))
  else 0

/-- `Set_Animation_Strategy::sanitize_property_value`. -/
def sanitize_property_value (key : String) (v : PHPValue) : PHPValue :=
  if key = "x" || key = "y" then vString (FromTo_Strategy.sanitize_movement_value v)
  else if key = "rotation" then vFloat (FromTo_Strategy.sanitize_numeric_value v (-360) 360)
  else if key = "scale" then vFloat (FromTo_Strategy.sanitize_numeric_value v (1/10) 10)
  else if key = "opacity" then vFloat (FromTo_Strategy.sanitize_numeric_value v 0 1)
  else if key = "backgroundColor" || key = "color" then vString (FromTo_Strategy.sanitize_color_value v)
  else if key = "width" || key = "height" then vString (FromTo_Strategy.sanitize_size_value v)
  else if key = "display" then vString (sanitize_display_value v)
  else if key = "visibility" then vString (sanitize_visibility_value v)
  else if key = "zIndex" then vInt (sanitize_z_index_value v)
  else v

/-- The `foreach` of `Set_Animation_Strategy::prepare_properties`. -/
def prepare_entries : List (PHPKey × PHPValue) → Except PhpError PHPArr
  | [] => .ok []
  | (PHPKey.i _, _) :: _ => .error .typeError
  | (PHPKey.s key, v) :: rest =>
    match prepare_entries rest with
    | .error e => .error e
    | .ok r =>
      .ok (if is_valid_property key v then (PHPKey.s key, sanitize_property_value key v) :: r else r)

/-- `Set_Animation_Strategy::prepare_properties`. -/
def prepare_properties (c : AnimationConfig) : Except PhpError PHPArr :=
  prepare_entries c.properties

/-- `Set_Animation_Strategy::validate_config`. -/
def validate_config (c : AnimationConfig) : List String :=
  if c.properties.isEmpty then ["Set animation requires at least one property to set"] else []

/-- `Set_Animation_Strategy::generate_animation_data`. -/
def generate_animation_data (c : AnimationConfig) : Except PhpError PHPValue :=
  match prepare_properties c with
  | .error e => .error e
  | .ok props =>
    .ok (vArray
      [(.s "type", vString "set"),
       (.s "properties", vArray props),
       (.s "trigger", vString c.trigger)])

end Set_Strategy

/-! ### Deep equality of PHP values (for the round-trip claim) -/

mutual

/-- Deep equality of PHP values: arrays compare as key-value maps
(order-insensitive, both directions), numbers compare by value across
int/float as loose JSON-style deep equality does, other scalars compare
strictly. -/
def deepEq : PHPValue → PHPValue → Bool
  | vNull, vNull => true
  | vBool a, vBool b => a == b
  | vInt a, vInt b => a == b
  | vInt a, vFloat b => (a : ℚ) == b
  | vFloat a, vInt b => a == (b : ℚ)
  | vFloat a, vFloat b => a == b
  | vString a, vString b => a == b
  | vArray xs, vArray ys =>
    deepEqEntries xs ys && ys.all fun p => (lookupArr xs p.1).isSome
  | _, _ => false

/-- Each entry of the first array deep-equals the first entry with the same
key in the second. -/
def deepEqEntries : List (PHPKey × PHPValue) → PHPArr → Bool
  | [], _ => true
  | (k, v) :: rest, ys =>
    (match lookupArr ys k with
     | some w => deepEq v w
     | none => false) && deepEqEntries rest ys

end

/-- Keys handled by the switch of
`Property_Validator::sanitize_animation_property_value`. -/
def sanitizedKeys : List String :=
  ["x", "y", "rotation", "scale", "opacity", "backgroundColor", "color", "width", "height"]

/-- An a-priori harmless shape condition: if the input has a `properties`
array, all its keys are strings (PHP objects decode to string-keyed
arrays; JSON lists decode to integer-keyed ones). -/
def propsKeysOk (data : PHPArr) : Bool :=
  match lookupIsset data (PHPKey.s "properties") with
  | some (vArray props) =>
    props.all fun p => match p.1 with
      | PHPKey.s _ => true
      | PHPKey.i _ => false
  | _ => true

/-- Top-level required fields of the validator. -/
def requiredTopFields : List String := ["enabled", "type", "trigger", "properties", "timing"]

/-- An otherwise plausible input whose `properties` member is a JSON list
(integer-keyed array), as in `{"properties": [1]}` decoded by PHP. -/
def c2FailingInput : PHPArr :=
  [(PHPKey.s "enabled", vBool true),
   (PHPKey.s "type", vString "to"),
   (PHPKey.s "trigger", vString "click"),
   (PHPKey.s "properties", vArray [(PHPKey.i 0, vInt 1)]),
   (PHPKey.s "timing", vArray [(PHPKey.s "duration", vInt 1), (PHPKey.s "ease", vString "none")])]

/-- The C7 scenario input: an otherwise-valid configuration whose timing
omits only `duration`. -/
def c7ScenarioInput : PHPArr :=
  [(PHPKey.s "enabled", vBool true),
   (PHPKey.s "type", vString "to"),
   (PHPKey.s "trigger", vString "click"),
   (PHPKey.s "properties", vArray [(PHPKey.s "opacity", vFloat (1/2))]),
   (PHPKey.s "timing", vArray [(PHPKey.s "ease", vString "none")])]

/-- The C5 scenario input: an enabled fromTo configuration whose only
animated property is `opacity: 0`. -/
def c5Input : PHPArr :=
  [(PHPKey.s "enabled", vBool true),
   (PHPKey.s "type", vString "fromTo"),
   (PHPKey.s "trigger", vString "pageload"),
   (PHPKey.s "properties", vArray [(PHPKey.s "opacity", vInt 0)]),
   (PHPKey.s "timing", vArray [(PHPKey.s "duration", vInt 1), (PHPKey.s "ease", vString "none")])]

/-- A serialized configuration that `Animation_Validator` accepts but that
omits the optional `timing.delay`, `timing.repeat`, `timing.yoyo` and
`selector` members. -/
def c4Input : PHPArr :=
  [(PHPKey.s "enabled", vBool true),
   (PHPKey.s "type", vString "to"),
   (PHPKey.s "trigger", vString "click"),
   (PHPKey.s "properties", vArray [(PHPKey.s "opacity", vFloat (1/2))]),
   (PHPKey.s "timing", vArray [(PHPKey.s "duration", vInt 1), (PHPKey.s "ease", vString "none")])]

/-- A fully-explicit serialized configuration shape: every key `to_array`
produces is present, with `duration`/`delay` as floats and `repeat` as an
integer. -/
structure ConfigShape where
  en : Bool
  ty : String
  tr : String
  props : PHPArr
  dur : ℚ
  dl : ℚ
  rp : Int
  yo : Bool
  es : String
  sel : Option String

/-- The serialized `selector` member of a shape. -/
def shapeSelVal : Option String → PHPValue
  | none => vNull
  | some st => vString st

/-- The serialized object of a fully-explicit shape. -/
def shapePhp (s : ConfigShape) : PHPArr :=
  [(PHPKey.s "enabled", vBool s.en),
   (PHPKey.s "type", vString s.ty),
   (PHPKey.s "trigger", vString s.tr),
   (PHPKey.s "properties", vArray s.props),
   (PHPKey.s "timing", vArray
     [(PHPKey.s "duration", vFloat s.dur),
      (PHPKey.s "delay", vFloat s.dl),
      (PHPKey.s "repeat", vInt s.rp),
      (PHPKey.s "yoyo", vBool s.yo),
      (PHPKey.s "ease", vString s.es)]),
   (PHPKey.s "selector", shapeSelVal s.sel)]

/-- Whether the serialized selector survives the constructor's `empty()`
test (absent-as-null, or a non-empty string other than `0`). -/
def selOk : Option String → Bool
  | none => true
  | some st => !(st = "" || st = "0")

/-! ### Helper lemmas: numeric strings versus CSS-unit strings -/

/-- A character outside the numeric-string alphabet sends every automaton
state to the dead state. -/
theorem numStepC_other (s : Fin 11) : numStepC s NumCClass.other = 9 := by
  fin_cases s <;> rfl

/-- The dead state absorbs every character class. -/
theorem numStepC_dead (c : NumCClass) : numStepC 9 c = 9 := by
  cases c <;> rfl

/-- The dead state absorbs whole runs. -/
theorem numRun_dead (l : List Char) : numRun 9 l = 9 := by
  induction l with
  | nil => rfl
  | cons c r ih =>
    simpa [numRun, numStep, numStepC_dead] using ih

/-- Runs split across appends. -/
theorem numRun_append (s : Fin 11) (a b : List Char) :
    numRun s (a ++ b) = numRun (numRun s a) b := by
  simp [numRun, List.foldl_append]

/-- A string containing a character outside the numeric alphabet is not a
PHP numeric string. -/
theorem phpIsNumericStr_of_other {c : Char} {l : List Char}
    (hmem : c ∈ l) (hc : numCClass c = NumCClass.other) :
    phpIsNumericStr l = false := by
  obtain ⟨a, b, rfl⟩ := List.append_of_mem hmem
  have h1 : numRun 0 (a ++ c :: b) = 9 := by
    rw [show (c :: b) = [c] ++ b from rfl, ← List.append_assoc, numRun_append]
    have h2 : numRun (numRun 0 (a ++ [c])) b = numRun 9 b := by
      have : numRun 0 (a ++ [c]) = 9 := by
        rw [numRun_append]
        simp [numRun, numStep, hc, numStepC_other]
      rw [this]
    rw [h2, numRun_dead]
  simp [phpIsNumericStr, h1, numAccept]

/-- Every unit suffix of the full CSS-unit list contains a character
outside the numeric alphabet. -/
theorem fullUnits_have_other :
    ∀ u ∈ fullUnits, ∃ c ∈ u, numCClass c = NumCClass.other := by
  decide

/-- Every unit suffix of the small CSS-unit list contains a character
outside the numeric alphabet. -/
theorem smallUnits_have_other :
    ∀ u ∈ smallUnits, ∃ c ∈ u, numCClass c = NumCClass.other := by
  decide

/-- A list matched by `unitAny` contains a character outside the numeric
alphabet, provided every unit of the list does. -/
theorem unitAny_bad_char {units : List (List Char)} {l : List Char}
    (hunits : ∀ u ∈ units, ∃ c ∈ u, numCClass c = NumCClass.other)
    (h : unitAny units l = true) : ∃ c ∈ l, numCClass c = NumCClass.other := by
  rw [unitAny, List.any_eq_true] at h
  obtain ⟨u, hu, hcond⟩ := h
  have hsuf : u <:+ l := by
    have := (Bool.and_eq_true _ _).mp hcond |>.1
    exact List.isSuffixOf_iff_suffix.mp this
  obtain ⟨t, rfl⟩ := hsuf
  obtain ⟨c, hcu, hc⟩ := hunits u hu
  exact ⟨c, List.mem_append_of_mem_right t hcu, hc⟩

/-- Members of the sign-stripped list are members of the original list. -/
theorem stripNeg_sub {c : Char} {l : List Char} (h : c ∈ stripNeg l) : c ∈ l := by
  unfold stripNeg at h
  split at h
  · exact List.mem_cons_of_mem _ h
  · exact h

/-- A string matching the full CSS-unit pattern is not numeric. -/
theorem cssUnitMatchFull_not_numeric {st : String}
    (h : cssUnitMatchFull st = true) : phpIsNumericStr st.data = false := by
  rw [cssUnitMatchFull] at h
  obtain ⟨c, hcm, hc⟩ := unitAny_bad_char fullUnits_have_other h
  exact phpIsNumericStr_of_other (stripNeg_sub hcm) hc

/-- A string matching the positive small CSS-unit pattern is not numeric. -/
theorem cssUnitMatchPos_not_numeric {st : String}
    (h : cssUnitMatchPos st = true) : phpIsNumericStr st.data = false := by
  rw [cssUnitMatchPos] at h
  obtain ⟨c, hcm, hc⟩ := unitAny_bad_char smallUnits_have_other h
  exact phpIsNumericStr_of_other hcm hc

/-- A string matching the signed small CSS-unit pattern is not numeric. -/
theorem cssUnitMatchSigned_not_numeric {st : String}
    (h : cssUnitMatchSigned st = true) : phpIsNumericStr st.data = false := by
  rw [cssUnitMatchSigned] at h
  obtain ⟨c, hcm, hc⟩ := unitAny_bad_char smallUnits_have_other h
  exact phpIsNumericStr_of_other (stripNeg_sub hcm) hc

/-- Appending a unit of the list to a matching decimal core yields a
`unitAny` match. -/
theorem unitAny_append {units : List (List Char)} {core u : List Char}
    (hu : u ∈ units) (hcore : decCore core = true) :
    unitAny units (core ++ u) = true := by
  rw [unitAny, List.any_eq_true]
  refine ⟨u, hu, ?_⟩
  have hsuf : u.isSuffixOf (core ++ u) = true :=
    List.isSuffixOf_iff_suffix.mpr (List.suffix_append core u)
  have htake : (core ++ u).take ((core ++ u).length - u.length) = core := by
    rw [List.length_append, Nat.add_sub_cancel]
    exact List.take_left core u
  rw [hsuf, htake, hcore]
  rfl

/-- Unfolding lemma for `stripNeg` on a cons cell. -/
theorem stripNeg_cons (c : Char) (r : List Char) :
    stripNeg (c :: r) = if c = '-' then r else c :: r := by
  unfold stripNeg
  split
  · next tail heq =>
    rw [List.cons.injEq] at heq
    rw [heq.1, heq.2, if_pos rfl]
  · next hne =>
    rw [if_neg fun hc => hne r (by rw [hc])]

/-- Stripping the sign commutes with appending a suffix that does not start
with a minus sign. -/
theorem stripNeg_append_px (a : List Char) :
    stripNeg (a ++ "px".data) = stripNeg a ++ "px".data := by
  cases a with
  | nil => rfl
  | cons c r =>
    rw [List.cons_append, stripNeg_cons, stripNeg_cons]
    by_cases hc : c = '-' <;> simp [hc]

/-! ### Idempotence lemmas for the sanitizers -/

/-- Clamping twice is clamping once. -/
theorem clamp_idem {mn mx q : ℚ} (h : mn ≤ mx) :
    max mn (min mx (max mn (min mx q))) = max mn (min mx q) := by
  have h1 : mn ≤ max mn (min mx q) := le_max_left _ _
  have h2 : max mn (min mx q) ≤ mx := max_le h (min_le_left _ _)
  rw [min_eq_right h2, max_eq_right h1]

/-- `Property_Validator::sanitize_numeric_value` is idempotent whenever the
default lies inside the (nonempty) interval, as at every call site. -/
theorem pv_sanitize_numeric_idem (v : PHPValue) {mn mx d : ℚ}
    (hle : mn ≤ mx) (hd1 : mn ≤ d) (hd2 : d ≤ mx) :
    Property_Validator.sanitize_numeric_value
        (vFloat (Property_Validator.sanitize_numeric_value v mn mx d)) mn mx d
      = Property_Validator.sanitize_numeric_value v mn mx d := by
  rw [Property_Validator.sanitize_numeric_value]
  simp only [isNumericVal, Bool.not_true, Bool.false_eq_true, if_false, phpToFloat]
  by_cases hnum : isNumericVal v = true
  · rw [Property_Validator.sanitize_numeric_value, if_neg (by simp [hnum])]
    exact clamp_idem hle
  · rw [Property_Validator.sanitize_numeric_value,
      if_pos (by simp at hnum; simp [hnum])]
    rw [min_eq_right hd2, max_eq_right hd1]

/-- `Property_Validator::sanitize_css_color` is idempotent. -/
theorem pv_sanitize_color_idem (st : String) :
    Property_Validator.sanitize_css_color
        (Property_Validator.sanitize_css_color st "transparent") "transparent"
      = Property_Validator.sanitize_css_color st "transparent" := by
  by_cases hv : Property_Validator.validate_css_color st = true
  · have hinner : Property_Validator.sanitize_css_color st "transparent" = st := by
      rw [Property_Validator.sanitize_css_color, if_pos hv]
    rw [hinner, Property_Validator.sanitize_css_color, if_pos hv]
  · have hinner : Property_Validator.sanitize_css_color st "transparent" = "transparent" := by
      rw [Property_Validator.sanitize_css_color, if_neg hv]
    rw [hinner]
    rfl

/-- `Property_Validator::sanitize_css_unit` (with the default unit `px`)
is idempotent for every non-numeric value and for every numeric value whose
PHP string rendering is a plain optionally-signed decimal. -/
theorem pv_sanitize_unit_idem (v : PHPValue)
    (hcond : isNumericVal v = true → decMatch (phpToString v).data = true) :
    Property_Validator.sanitize_css_unit
        (vString (Property_Validator.sanitize_css_unit v "px")) "px"
      = Property_Validator.sanitize_css_unit v "px" := by
  by_cases hnum : isNumericVal v = true
  · have hd : decMatch (phpToString v).data = true := hcond hnum
    rw [decMatch] at hd
    have hinner : Property_Validator.sanitize_css_unit v "px" = phpToString v ++ "px" := by
      rw [Property_Validator.sanitize_css_unit.eq_def, if_pos hnum]
    have hodata : (phpToString v ++ "px").data = (phpToString v).data ++ "px".data :=
      String.data_append _ _
    have hmatch : cssUnitMatchFull (phpToString v ++ "px") = true := by
      rw [cssUnitMatchFull, hodata, stripNeg_append_px]
      exact unitAny_append (by decide) hd
    have hnotnum : phpIsNumericStr ((phpToString v).data ++ ['p', 'x']) = false := by
      have h0 := cssUnitMatchFull_not_numeric hmatch
      rw [hodata] at h0
      exact h0
    rw [hinner, Property_Validator.sanitize_css_unit.eq_def,
      if_neg (by simp [isNumericVal, hnotnum])]
    show (if Property_Validator.validate_css_unit (phpToString v ++ "px") = true
        then phpToString v ++ "px" else "0" ++ "px") = phpToString v ++ "px"
    rw [Property_Validator.validate_css_unit, hmatch]
    rfl
  · cases v with
    | vString st =>
      by_cases hm : Property_Validator.validate_css_unit st = true
      · have hinner : Property_Validator.sanitize_css_unit (vString st) "px" = st := by
          rw [Property_Validator.sanitize_css_unit.eq_def, if_neg hnum]
          show (if Property_Validator.validate_css_unit st = true then st else "0" ++ "px") = st
          rw [if_pos hm]
        rw [hinner]
        exact hinner
      · have hinner : Property_Validator.sanitize_css_unit (vString st) "px" = "0" ++ "px" := by
          rw [Property_Validator.sanitize_css_unit.eq_def, if_neg hnum]
          show (if Property_Validator.validate_css_unit st = true then st else "0" ++ "px")
            = "0" ++ "px"
          rw [if_neg hm]
        rw [hinner]
        rfl
    | vNull => rfl
    | vBool b => rfl
    | vArray a => rfl
    | vInt n => exact absurd rfl hnum
    | vFloat q => exact absurd rfl hnum

/-- Bounds of `Property_Validator::sanitize_numeric_value`. -/
theorem pv_sanitize_numeric_bounds (v : PHPValue) {mn mx d : ℚ}
    (hle : mn ≤ mx) (hd1 : mn ≤ d) (hd2 : d ≤ mx) :
    mn ≤ Property_Validator.sanitize_numeric_value v mn mx d ∧
      Property_Validator.sanitize_numeric_value v mn mx d ≤ mx := by
  rw [Property_Validator.sanitize_numeric_value]
  by_cases hnum : isNumericVal v = true
  · rw [if_neg (by simp [hnum])]
    exact ⟨le_max_left _ _, max_le hle (min_le_left _ _)⟩
  · rw [if_pos (by simp at hnum; simp [hnum])]
    exact ⟨hd1, hd2⟩

/-- C1 (counterexample).  Sanitization under the allow-listed key `x` is
not idempotent: the PHP-numeric string `1e5` first becomes `1e5px`, which
the CSS-unit pattern rejects, so a second pass collapses it to `0px`. -/
theorem c1_idempotence_counterexample :
    Property_Validator.sanitize_animation_property_value "x" (vString "1e5")
        = vString "1e5px" ∧
    Property_Validator.sanitize_animation_property_value "x"
        (Property_Validator.sanitize_animation_property_value "x" (vString "1e5"))
        = vString "0px" ∧
    vString "0px" ≠ vString "1e5px" := by
  refine ⟨rfl, rfl, ?_⟩
  intro h
  simp at h

/-- C1 (amended).  `sanitize_animation_property_value` is idempotent for
the keys rotation, scale, opacity, backgroundColor and color for every
input, and for the CSS-unit keys x, y, width and height for every input
except a numeric one whose PHP string rendering is not a plain
optionally-minus-signed decimal (such as the exponent-form numeric string
`1e5`). -/
theorem c1_sanitize_idempotent_amended (k : String) (v : PHPValue)
    (hk : k ∈ sanitizedKeys)
    (hcond : (k = "x" ∨ k = "y" ∨ k = "width" ∨ k = "height") →
      isNumericVal v = true → decMatch (phpToString v).data = true) :
    Property_Validator.sanitize_animation_property_value k
        (Property_Validator.sanitize_animation_property_value k v)
      = Property_Validator.sanitize_animation_property_value k v := by
  fin_cases hk
  · exact congrArg vString (pv_sanitize_unit_idem v (hcond (Or.inl rfl)))
  · exact congrArg vString (pv_sanitize_unit_idem v (hcond (Or.inr (Or.inl rfl))))
  · exact congrArg vFloat (pv_sanitize_numeric_idem v (by decide) (by decide) (by decide))
  · exact congrArg vFloat (pv_sanitize_numeric_idem v (by decide) (by decide) (by decide))
  · exact congrArg vFloat (pv_sanitize_numeric_idem v (by decide) (by decide) (by decide))
  · cases v with
    | vString st => exact congrArg vString (pv_sanitize_color_idem st)
    | vNull => rfl
    | vBool b => rfl
    | vInt n => rfl
    | vFloat q => rfl
    | vArray a => rfl
  · cases v with
    | vString st => exact congrArg vString (pv_sanitize_color_idem st)
    | vNull => rfl
    | vBool b => rfl
    | vInt n => rfl
    | vFloat q => rfl
    | vArray a => rfl
  · exact congrArg vString (pv_sanitize_unit_idem v (hcond (Or.inr (Or.inr (Or.inl rfl)))))
  · exact congrArg vString (pv_sanitize_unit_idem v (hcond (Or.inr (Or.inr (Or.inr rfl)))))

/-- Witness for the amended C1 theorem at two concrete inputs. -/
theorem c1_witness :
    Property_Validator.sanitize_animation_property_value "rotation"
        (Property_Validator.sanitize_animation_property_value "rotation" (vString "abc"))
      = Property_Validator.sanitize_animation_property_value "rotation" (vString "abc") ∧
    Property_Validator.sanitize_animation_property_value "x"
        (Property_Validator.sanitize_animation_property_value "x" (vInt 7))
      = Property_Validator.sanitize_animation_property_value "x" (vInt 7) :=
  ⟨c1_sanitize_idempotent_amended "rotation" (vString "abc") (by decide) (by decide),
   c1_sanitize_idempotent_amended "x" (vInt 7) (by decide) (by decide)⟩

/-- C6.  Every sanitized numeric property lies in its documented closed
interval, and the out-of-range rotation scenario values hold exactly. -/
theorem c6_sanitized_ranges :
    (∀ v, ∃ q, Property_Validator.sanitize_animation_property_value "rotation" v = vFloat q ∧
      -360 ≤ q ∧ q ≤ 360) ∧
    (∀ v, ∃ q, Property_Validator.sanitize_animation_property_value "scale" v = vFloat q ∧
      1/10 ≤ q ∧ q ≤ 10) ∧
    (∀ v, ∃ q, Property_Validator.sanitize_animation_property_value "opacity" v = vFloat q ∧
      0 ≤ q ∧ q ≤ 1) ∧
    (∀ v, -999 ≤ Set_Strategy.sanitize_z_index_value v ∧
      Set_Strategy.sanitize_z_index_value v ≤ 999) ∧
    Property_Validator.sanitize_animation_property_value "rotation" (vInt 9000) = vFloat 360 ∧
    Property_Validator.sanitize_animation_property_value "rotation" (vInt (-9000)) = vFloat (-360) := by
  refine ⟨?_, ?_, ?_, ?_, rfl, rfl⟩
  · intro v
    exact ⟨_, rfl, (pv_sanitize_numeric_bounds v (by decide) (by decide) (by decide)).1,
      (pv_sanitize_numeric_bounds v (by decide) (by decide) (by decide)).2⟩
  · intro v
    exact ⟨_, rfl, (pv_sanitize_numeric_bounds v (by decide) (by decide) (by decide)).1,
      (pv_sanitize_numeric_bounds v (by decide) (by decide) (by decide)).2⟩
  · intro v
    exact ⟨_, rfl, (pv_sanitize_numeric_bounds v (by decide) (by decide) (by decide)).1,
      (pv_sanitize_numeric_bounds v (by decide) (by decide) (by decide)).2⟩
  · intro v
    rw [Set_Strategy.sanitize_z_index_value]
    by_cases hnum : isNumericVal v = true
    · rw [if_pos hnum]
      exact ⟨le_max_left _ _, max_le (by decide) (min_le_left _ _)⟩
    · rw [if_neg hnum]
      exact ⟨by decide, by decide⟩

/-- C3.  The fromTo strategy's derived rotation start value is the target
shifted to the other side of zero by one full turn, hence congruent to the
target modulo 360. -/
theorem c3_opposite_rotation (q : ℚ) :
    FromTo_Strategy.generate_from_value "rotation" (vFloat q)
        = vFloat (if 0 < q then q - 360 else q + 360) ∧
    (FromTo_Strategy.calculate_opposite_rotation (vFloat q) - q = -360 ∨
      FromTo_Strategy.calculate_opposite_rotation (vFloat q) - q = 360) := by
  constructor
  · show vFloat (FromTo_Strategy.calculate_opposite_rotation (vFloat q)) = _
    rw [FromTo_Strategy.calculate_opposite_rotation]
    simp only [isNumericVal, if_true, phpToFloat]
  · rw [FromTo_Strategy.calculate_opposite_rotation]
    simp only [isNumericVal, if_true, phpToFloat]
    by_cases h : 0 < q
    · rw [if_pos h]
      left
      ring
    · rw [if_neg h]
      right
      ring

/-- C9 (counterexample).  The selector safety check accepts a harmless
selector of 201 characters (the claimed limit is 200; the code's limit is
500) and accepts an inline event-handler attribute (the `on\w+\s*=` entry
is passed through `preg_quote`, so it matches only its literal text). -/
theorem c9_selector_counterexample :
    Property_Validator.validate_css_selector (String.mk (List.replicate 201 'a')) = true ∧
    Property_Validator.validate_css_selector "div onclick=alert(1)" = true := by
  constructor
  · rfl
  · rfl

/-- C9 (amended).  `validate_css_selector` accepts exactly the selectors
that are non-empty (and not the PHP-falsy string `0`), at most 500
characters long, and free of all six literal forbidden substrings
(case-insensitively); the two scenario selectors behave as claimed. -/
theorem c9_selector_safety_amended :
    (∀ st : String, Property_Validator.validate_css_selector st = true ↔
      (st ≠ "" ∧ st ≠ "0" ∧ st.length ≤ 500 ∧
        ∀ p ∈ Property_Validator.forbiddenPatterns, ciContains st p = false)) ∧
    Property_Validator.validate_css_selector "<script>alert(1)</script>" = false ∧
    Property_Validator.validate_css_selector ".my-class > p" = true := by
  refine ⟨?_, rfl, rfl⟩
  intro st
  rw [Property_Validator.validate_css_selector]
  by_cases he : (phpEmptyVal (vString st) || decide (st.length > 500)) = true
  · rw [if_pos he]
    simp only [phpEmptyVal, Bool.or_eq_true, decide_eq_true_eq] at he
    constructor
    · intro h
      exact absurd h (by simp)
    · intro ⟨h1, h2, h3, _⟩
      rcases he with he | he
      · rcases he with he | he
        · exact absurd he h1
        · exact absurd he h2
      · omega
  · rw [if_neg he]
    simp only [phpEmptyVal, Bool.or_eq_true, decide_eq_true_eq, not_or] at he
    obtain ⟨⟨h1, h2⟩, h3⟩ := he
    simp only [Bool.not_eq_true', List.any_eq_false]
    constructor
    · intro h
      refine ⟨h1, h2, by omega, ?_⟩
      intro p hp
      exact Bool.not_eq_true _ ▸ (h p hp)
    · intro ⟨_, _, _, h4⟩
      intro p hp
      simp [h4 p hp]

/-- C10 (counterexample).  For the key `width`, `Property_Validator`'s
sanitizer falls back to `0px`, not `auto`, and accepts a signed CSS unit
unchanged (the claim allows only sign-less units). -/
theorem c10_size_counterexample :
    Property_Validator.sanitize_animation_property_value "width" (vString "abc")
        = vString "0px" ∧
    vString "0px" ≠ vString "auto" ∧
    Property_Validator.sanitize_animation_property_value "width" (vString "-5px")
        = vString "-5px" := by
  refine ⟨rfl, ?_, rfl⟩
  intro h
  simp at h

/-- C10 (amended).  For width and height,
`Property_Validator::sanitize_animation_property_value` appends `px` to the
rendering of a numeric value, keeps strings matching the extended signed
CSS-unit pattern, and falls back to `0px`; the strategies'
`sanitize_size_value` appends `px` to the number clamped below at zero,
keeps strings matching the positive CSS-unit pattern, and falls back to
`auto`. -/
theorem c10_size_sanitize_amended :
    (∀ v, isNumericVal v = true →
      Property_Validator.sanitize_animation_property_value "width" v
          = vString (phpToString v ++ "px") ∧
      FromTo_Strategy.sanitize_size_value v = ratToStr (max 0 (phpToFloat v)) ++ "px") ∧
    (∀ st, cssUnitMatchFull st = true →
      Property_Validator.sanitize_animation_property_value "width" (vString st) = vString st) ∧
    (∀ st, cssUnitMatchPos st = true → FromTo_Strategy.sanitize_size_value (vString st) = st) ∧
    (∀ v, isNumericVal v = false →
      (∀ st, v = vString st → cssUnitMatchFull st = false) →
      Property_Validator.sanitize_animation_property_value "width" v = vString "0px") ∧
    (∀ v, isNumericVal v = false →
      (∀ st, v = vString st → cssUnitMatchPos st = false) →
      FromTo_Strategy.sanitize_size_value v = "auto") ∧
    (∀ v, Property_Validator.sanitize_animation_property_value "height" v
        = Property_Validator.sanitize_animation_property_value "width" v) := by
  refine ⟨?_, ?_, ?_, ?_, ?_, fun v => rfl⟩
  · intro v hnum
    constructor
    · show vString (Property_Validator.sanitize_css_unit v "px") = _
      rw [Property_Validator.sanitize_css_unit.eq_def, if_pos hnum]
    · rw [FromTo_Strategy.sanitize_size_value.eq_def, if_pos hnum]
  · intro st hm
    have hnn : isNumericVal (vString st) = false := cssUnitMatchFull_not_numeric hm
    show vString (Property_Validator.sanitize_css_unit (vString st) "px") = _
    rw [Property_Validator.sanitize_css_unit.eq_def, if_neg (by simp [hnn])]
    show vString (if Property_Validator.validate_css_unit st = true then st else "0" ++ "px")
        = vString st
    rw [Property_Validator.validate_css_unit, hm]
    rfl
  · intro st hm
    have hnn : isNumericVal (vString st) = false := cssUnitMatchPos_not_numeric hm
    rw [FromTo_Strategy.sanitize_size_value.eq_def, if_neg (by simp [hnn])]
    show (if cssUnitMatchPos st = true then st else "auto") = st
    rw [hm]
    rfl
  · intro v hnum hns
    cases v with
    | vString st =>
      show vString (Property_Validator.sanitize_css_unit (vString st) "px") = _
      rw [Property_Validator.sanitize_css_unit.eq_def, if_neg (by simp [hnum])]
      show vString (if Property_Validator.validate_css_unit st = true then st else "0" ++ "px")
          = vString "0px"
      rw [Property_Validator.validate_css_unit, hns st rfl]
      rfl
    | vNull => rfl
    | vBool b => rfl
    | vArray a => rfl
    | vInt n => simp [isNumericVal] at hnum
    | vFloat q => simp [isNumericVal] at hnum
  · intro v hnum hns
    cases v with
    | vString st =>
      rw [FromTo_Strategy.sanitize_size_value.eq_def, if_neg (by simp [hnum])]
      show (if cssUnitMatchPos st = true then st else "auto") = "auto"
      rw [hns st rfl]
      rfl
    | vNull => rfl
    | vBool b => rfl
    | vArray a => rfl
    | vInt n => simp [isNumericVal] at hnum
    | vFloat q => simp [isNumericVal] at hnum

/-- Witness for the amended C10 theorem at concrete inputs. -/
theorem c10_witness :
    Property_Validator.sanitize_animation_property_value "width" (vInt 5) = vString "5px" ∧
    FromTo_Strategy.sanitize_size_value (vInt (-5)) = "0px" ∧
    Property_Validator.sanitize_animation_property_value "width" (vString "5pt")
        = vString "5pt" ∧
    FromTo_Strategy.sanitize_size_value (vString "5px") = "5px" ∧
    Property_Validator.sanitize_animation_property_value "width" (vBool true)
        = vString "0px" ∧
    FromTo_Strategy.sanitize_size_value (vString "abc") = "auto" :=
  ⟨(c10_size_sanitize_amended.1 (vInt 5) (by decide)).1,
   (c10_size_sanitize_amended.1 (vInt (-5)) (by decide)).2,
   c10_size_sanitize_amended.2.1 "5pt" (by decide),
   c10_size_sanitize_amended.2.2.1 "5px" (by decide),
   c10_size_sanitize_amended.2.2.2.1 (vBool true) (by decide)
     (fun st h => PHPValue.noConfusion h),
   c10_size_sanitize_amended.2.2.2.2.1 (vString "abc") (by decide)
     (fun st h => by cases h; decide)⟩

/-! ### Validator claims -/

/-- A nonempty list is not `isEmpty`. -/
theorem isEmpty_false_of_mem {α : Type} {x : α} {l : List α} (h : x ∈ l) :
    l.isEmpty = false := by
  cases l with
  | nil => exact absurd h (List.not_mem_nil x)
  | cons a r => rfl

/-- The property loop succeeds on string-keyed entries. -/
theorem validatePropsEntries_ok {props : List (PHPKey × PHPValue)}
    (h : (props.all fun p => match p.1 with
      | PHPKey.s _ => true
      | PHPKey.i _ => false) = true) :
    ∃ es, Animation_Validator.validatePropsEntries props = .ok es := by
  induction props with
  | nil => exact ⟨[], rfl⟩
  | cons p rest ih =>
    obtain ⟨k, v⟩ := p
    rw [List.all_cons, Bool.and_eq_true] at h
    cases k with
    | i n => simp at h
    | s key =>
      obtain ⟨es, hes⟩ := ih h.2
      refine ⟨Animation_Validator.validate_property key v ++ es, ?_⟩
      show (match Animation_Validator.validatePropsEntries rest with
            | Except.error e => Except.error e
            | Except.ok es2 => Except.ok (Animation_Validator.validate_property key v ++ es2)) =
          Except.ok (Animation_Validator.validate_property key v ++ es)
      rw [hes]

/-- `validate_properties` succeeds whenever the properties keys are strings. -/
theorem validate_properties_ok {data : PHPArr} (h : propsKeysOk data = true) :
    ∃ es, Animation_Validator.validate_properties data = .ok es := by
  rw [propsKeysOk.eq_def] at h
  rw [Animation_Validator.validate_properties.eq_def]
  cases hl : lookupIsset data (PHPKey.s "properties") with
  | none => exact ⟨_, rfl⟩
  | some v =>
    rw [hl] at h
    cases v with
    | vArray props =>
      have h2 : (props.all fun p => match p.1 with
        | PHPKey.s _ => true
        | PHPKey.i _ => false) = true := h
      by_cases hc : (phpTruthy (getQQ data (PHPKey.s "enabled") (vBool false)) && props.isEmpty) = true
      · exact ⟨_, if_pos hc⟩
      · obtain ⟨es, hes⟩ := validatePropsEntries_ok h2
        refine ⟨es, ?_⟩
        show (if (phpTruthy (getQQ data (PHPKey.s "enabled") (vBool false)) && props.isEmpty) = true
          then Except.ok ["properties: At least one property is required when animation is enabled"]
          else Animation_Validator.validatePropsEntries props) = Except.ok es
        rw [if_neg hc, hes]
    | vNull => exact ⟨_, rfl⟩
    | vBool b => exact ⟨_, rfl⟩
    | vInt n => exact ⟨_, rfl⟩
    | vFloat q => exact ⟨_, rfl⟩
    | vString st => exact ⟨_, rfl⟩

/-- Shape of a successful `validate` call: the boolean result is the
emptiness of the accumulated error list. -/
theorem validate_ok_shape {data : PHPArr} (h : propsKeysOk data = true) :
    ∃ pes,
      Animation_Validator.validate_properties data = .ok pes ∧
      Animation_Validator.validate data =
        .ok ((Animation_Validator.validate_enabled data ++ Animation_Validator.validate_type data ++
            Animation_Validator.validate_trigger data ++ pes ++
            Animation_Validator.validate_timing data ++
            Animation_Validator.validate_selector data).isEmpty,
          Animation_Validator.validate_enabled data ++ Animation_Validator.validate_type data ++
            Animation_Validator.validate_trigger data ++ pes ++
            Animation_Validator.validate_timing data ++
            Animation_Validator.validate_selector data) := by
  obtain ⟨pes, hpes⟩ := validate_properties_ok h
  refine ⟨pes, hpes, ?_⟩
  rw [Animation_Validator.validate, hpes]

/-- C2.  `Animation_Validator::validate` raises `TypeError` on a
JSON-serializable input whose `properties` map is a JSON list: the
`foreach` passes the integer key `0` to the `string $key` parameter of
`validate_property` under `strict_types=1`. -/
theorem c2_validate_throws_on_list_properties :
    Animation_Validator.validate c2FailingInput = Except.error PhpError.typeError := rfl

/-- C7 (counterexample).  An input missing the required field `enabled`
(and others) whose `properties` member is a JSON list makes `validate`
raise `TypeError` instead of returning `false` with an error naming the
missing field. -/
theorem c7_counterexample :
    Animation_Validator.validate [(PHPKey.s "properties", vArray [(PHPKey.i 0, vString "x")])]
      = Except.error PhpError.typeError := rfl

/-- C7 (amended).  Provided the `properties` member (when present as an
array) has only string keys — without this proviso `validate` can raise —
an input missing any required field makes `validate` return `false` with
an accumulated error message mentioning that field's name, and the
omit-only-`timing.duration` scenario yields exactly one error message
referencing `timing.duration`. -/
theorem c7_missing_required_amended :
    (∀ data : PHPArr, propsKeysOk data = true →
      ∀ f ∈ requiredTopFields, lookupIsset data (PHPKey.s f) = none →
      ∃ errs, Animation_Validator.validate data = Except.ok (false, errs) ∧
        ∃ m ∈ errs, containsSeq f.data m.data = true) ∧
    (∀ data : PHPArr, ∀ timing : PHPArr, propsKeysOk data = true →
      lookupIsset data (PHPKey.s "timing") = some (vArray timing) →
      lookupIsset timing (PHPKey.s "duration") = none →
      ∃ errs, Animation_Validator.validate data = Except.ok (false, errs) ∧
        ∃ m ∈ errs, containsSeq "timing.duration".data m.data = true) ∧
    (∀ data : PHPArr, ∀ timing : PHPArr, propsKeysOk data = true →
      lookupIsset data (PHPKey.s "timing") = some (vArray timing) →
      lookupIsset timing (PHPKey.s "ease") = none →
      ∃ errs, Animation_Validator.validate data = Except.ok (false, errs) ∧
        ∃ m ∈ errs, containsSeq "timing.ease".data m.data = true) ∧
    Animation_Validator.validate c7ScenarioInput
      = Except.ok (false, ["timing.duration: Duration is required"]) := by
  have mainOf :
      ∀ (data : PHPArr), propsKeysOk data = true →
      ∀ (m : String),
        (∀ pes, Animation_Validator.validate_properties data = Except.ok pes →
          m ∈ Animation_Validator.validate_enabled data ++ Animation_Validator.validate_type data ++
            Animation_Validator.validate_trigger data ++ pes ++
            Animation_Validator.validate_timing data ++
            Animation_Validator.validate_selector data) →
      ∃ errs, Animation_Validator.validate data = Except.ok (false, errs) ∧ m ∈ errs := by
    intro data h m hmem
    obtain ⟨pes, hpes, hval⟩ := validate_ok_shape h
    have hm := hmem pes hpes
    refine ⟨_, ?_, hm⟩
    rw [hval, isEmpty_false_of_mem hm]
  refine ⟨?_, ?_, ?_, rfl⟩
  · intro data h f hf hnone
    fin_cases hf
    · have hside : ∀ pes, Animation_Validator.validate_properties data = Except.ok pes →
          "enabled: Field is required" ∈ Animation_Validator.validate_enabled data ++
            Animation_Validator.validate_type data ++ Animation_Validator.validate_trigger data ++
            pes ++ Animation_Validator.validate_timing data ++
            Animation_Validator.validate_selector data := by
        intro pes _
        have he : Animation_Validator.validate_enabled data = ["enabled: Field is required"] := by
          rw [Animation_Validator.validate_enabled, hnone]
        simp [he]
      obtain ⟨errs, hv, hm⟩ := mainOf data h _ hside
      exact ⟨errs, hv, _, hm, by decide⟩
    · have hside : ∀ pes, Animation_Validator.validate_properties data = Except.ok pes →
          "type: Animation type is required" ∈ Animation_Validator.validate_enabled data ++
            Animation_Validator.validate_type data ++ Animation_Validator.validate_trigger data ++
            pes ++ Animation_Validator.validate_timing data ++
            Animation_Validator.validate_selector data := by
        intro pes _
        have he : Animation_Validator.validate_type data = ["type: Animation type is required"] := by
          rw [Animation_Validator.validate_type, hnone]
        simp [he]
      obtain ⟨errs, hv, hm⟩ := mainOf data h _ hside
      exact ⟨errs, hv, _, hm, by decide⟩
    · have hside : ∀ pes, Animation_Validator.validate_properties data = Except.ok pes →
          "trigger: Trigger type is required" ∈ Animation_Validator.validate_enabled data ++
            Animation_Validator.validate_type data ++ Animation_Validator.validate_trigger data ++
            pes ++ Animation_Validator.validate_timing data ++
            Animation_Validator.validate_selector data := by
        intro pes _
        have he : Animation_Validator.validate_trigger data
            = ["trigger: Trigger type is required"] := by
          rw [Animation_Validator.validate_trigger, hnone]
        simp [he]
      obtain ⟨errs, hv, hm⟩ := mainOf data h _ hside
      exact ⟨errs, hv, _, hm, by decide⟩
    · have hside : ∀ pes, Animation_Validator.validate_properties data = Except.ok pes →
          "properties: Properties are required" ∈ Animation_Validator.validate_enabled data ++
            Animation_Validator.validate_type data ++ Animation_Validator.validate_trigger data ++
            pes ++ Animation_Validator.validate_timing data ++
            Animation_Validator.validate_selector data := by
        intro pes hpes
        rw [Animation_Validator.validate_properties.eq_def, hnone] at hpes
        have hp : pes = ["properties: Properties are required"] := by
          cases hpes
          rfl
        simp [hp]
      obtain ⟨errs, hv, hm⟩ := mainOf data h _ hside
      exact ⟨errs, hv, _, hm, by decide⟩
    · have hside : ∀ pes, Animation_Validator.validate_properties data = Except.ok pes →
          "timing: Timing configuration is required" ∈ Animation_Validator.validate_enabled data ++
            Animation_Validator.validate_type data ++ Animation_Validator.validate_trigger data ++
            pes ++ Animation_Validator.validate_timing data ++
            Animation_Validator.validate_selector data := by
        intro pes _
        have he : Animation_Validator.validate_timing data
            = ["timing: Timing configuration is required"] := by
          rw [Animation_Validator.validate_timing.eq_def, hnone]
        simp [he]
      obtain ⟨errs, hv, hm⟩ := mainOf data h _ hside
      exact ⟨errs, hv, _, hm, by decide⟩
  · intro data timing h htim hnone
    have hside : ∀ pes, Animation_Validator.validate_properties data = Except.ok pes →
        "timing.duration: Duration is required" ∈ Animation_Validator.validate_enabled data ++
          Animation_Validator.validate_type data ++ Animation_Validator.validate_trigger data ++
          pes ++ Animation_Validator.validate_timing data ++
          Animation_Validator.validate_selector data := by
      intro pes _
      have hd : Animation_Validator.validate_duration timing
          = ["timing.duration: Duration is required"] := by
        rw [Animation_Validator.validate_duration.eq_def, hnone]
      have he : Animation_Validator.validate_timing data
          = Animation_Validator.validate_duration timing ++
            Animation_Validator.validate_delay timing ++
            Animation_Validator.validate_repeat timing ++
            Animation_Validator.validate_yoyo timing ++
            Animation_Validator.validate_ease timing := by
        rw [Animation_Validator.validate_timing.eq_def, htim]
      simp [he, hd]
    obtain ⟨errs, hv, hm⟩ := mainOf data h _ hside
    exact ⟨errs, hv, _, hm, by decide⟩
  · intro data timing h htim hnone
    have hside : ∀ pes, Animation_Validator.validate_properties data = Except.ok pes →
        "timing.ease: Ease function is required" ∈ Animation_Validator.validate_enabled data ++
          Animation_Validator.validate_type data ++ Animation_Validator.validate_trigger data ++
          pes ++ Animation_Validator.validate_timing data ++
          Animation_Validator.validate_selector data := by
      intro pes _
      have hd : Animation_Validator.validate_ease timing
          = ["timing.ease: Ease function is required"] := by
        rw [Animation_Validator.validate_ease.eq_def, hnone]
      have he : Animation_Validator.validate_timing data
          = Animation_Validator.validate_duration timing ++
            Animation_Validator.validate_delay timing ++
            Animation_Validator.validate_repeat timing ++
            Animation_Validator.validate_yoyo timing ++
            Animation_Validator.validate_ease timing := by
        rw [Animation_Validator.validate_timing.eq_def, htim]
      simp [he, hd]
    obtain ⟨errs, hv, hm⟩ := mainOf data h _ hside
    exact ⟨errs, hv, _, hm, by decide⟩

/-- Witness for the amended C7 theorem at concrete inputs. -/
theorem c7_witness :
    (∃ errs, Animation_Validator.validate [(PHPKey.s "type", vString "to")]
        = Except.ok (false, errs) ∧
      ∃ m ∈ errs, containsSeq "enabled".data m.data = true) ∧
    (∃ errs, Animation_Validator.validate
          [(PHPKey.s "timing", vArray [(PHPKey.s "ease", vString "none")])]
        = Except.ok (false, errs) ∧
      ∃ m ∈ errs, containsSeq "timing.duration".data m.data = true) :=
  ⟨c7_missing_required_amended.1 [(PHPKey.s "type", vString "to")] (by decide)
      "enabled" (by decide) rfl,
   c7_missing_required_amended.2.1 [(PHPKey.s "timing", vArray [(PHPKey.s "ease", vString "none")])]
      [(PHPKey.s "ease", vString "none")] (by decide) rfl rfl⟩

/-- Provenance of entries produced by the strategies' property-preparation
loops: every string-keyed output entry stems from an input entry the
strategy's `is_valid_property` accepted. -/
theorem prep_mem_general
    {isV : String → PHPValue → Bool} {tr : String → PHPValue → PHPValue}
    {F : List (PHPKey × PHPValue) → Except PhpError PHPArr}
    (hnil : F [] = Except.ok [])
    (hint : ∀ (n : Int) (v : PHPValue) rest, F ((PHPKey.i n, v) :: rest) = Except.error PhpError.typeError)
    (hcons : ∀ (k : String) (v : PHPValue) rest, F ((PHPKey.s k, v) :: rest) =
      match F rest with
      | Except.error e => Except.error e
      | Except.ok r => Except.ok (if isV k v then (PHPKey.s k, tr k v) :: r else r)) :
    ∀ props out, F props = Except.ok out → ∀ k w, (PHPKey.s k, w) ∈ out →
      ∃ v, (PHPKey.s k, v) ∈ props ∧ isV k v = true := by
  intro props
  induction props with
  | nil =>
    intro out h k w hw
    rw [hnil] at h
    cases h
    simp at hw
  | cons p rest ih =>
    obtain ⟨pk, v⟩ := p
    intro out h k w hw
    cases pk with
    | i n =>
      rw [hint] at h
      exact absurd h (by simp)
    | s key =>
      rw [hcons] at h
      cases hr : F rest with
      | error e =>
        rw [hr] at h
        exact absurd h (by simp)
      | ok r =>
        rw [hr] at h
        cases h
        by_cases hv : isV key v = true
        · rw [if_pos hv] at hw
          rcases List.mem_cons.mp hw with heq | htail
          · have hkk : key = k := by
              cases heq
              rfl
            subst hkk
            exact ⟨v, List.mem_cons_self _ _, hv⟩
          · obtain ⟨v2, hv2, hvalid2⟩ := ih r hr k w htail
            exact ⟨v2, List.mem_cons_of_mem _ hv2, hvalid2⟩
        · rw [if_neg hv] at hw
          obtain ⟨v2, hv2, hvalid2⟩ := ih r hr k w hw
          exact ⟨v2, List.mem_cons_of_mem _ hv2, hvalid2⟩

/-- C5.  The strategies silently drop every allow-listed property whose
value is PHP-falsy: `is_valid_property` requires `!empty($value)`, so all
prepared property sets contain only entries whose original value was
non-empty; a `{opacity: 0}` config passes `validate_config` yet produces
empty `from`/`to` property sets. -/
theorem c5_falsy_properties_omitted :
    (∀ k v, phpEmptyVal v = true → FromTo_Strategy.is_valid_property k v = false) ∧
    (∀ k v, phpEmptyVal v = true → Set_Strategy.is_valid_property k v = false) ∧
    (∀ props out, FromTo_Strategy.prepare_to_entries props = Except.ok out →
      ∀ k w, (PHPKey.s k, w) ∈ out →
        ∃ v, (PHPKey.s k, v) ∈ props ∧ FromTo_Strategy.is_valid_property k v = true) ∧
    (∀ props out, FromTo_Strategy.prepare_from_entries props = Except.ok out →
      ∀ k w, (PHPKey.s k, w) ∈ out →
        ∃ v, (PHPKey.s k, v) ∈ props ∧ FromTo_Strategy.is_valid_property k v = true) ∧
    (∀ props out, Set_Strategy.prepare_entries props = Except.ok out →
      ∀ k w, (PHPKey.s k, w) ∈ out →
        ∃ v, (PHPKey.s k, v) ∈ props ∧ Set_Strategy.is_valid_property k v = true) ∧
    (∃ cfg, Animation_Config.mk c5Input = Except.ok cfg ∧
      FromTo_Strategy.validate_config cfg = [] ∧
      FromTo_Strategy.generate_animation_data cfg = Except.ok (vArray
        [(PHPKey.s "type", vString "fromTo"),
         (PHPKey.s "fromProperties", vArray []),
         (PHPKey.s "toProperties", vArray []),
         (PHPKey.s "timing", vArray
           [(PHPKey.s "duration", vFloat 1),
            (PHPKey.s "delay", vFloat 0),
            (PHPKey.s "repeat", vInt 0),
            (PHPKey.s "yoyo", vBool false),
            (PHPKey.s "ease", vString "none")]),
         (PHPKey.s "trigger", vString "pageload")])) := by
  refine ⟨?_, ?_, ?_, ?_, ?_, ⟨_, rfl, rfl, rfl⟩⟩
  · intro k v hv
    rw [FromTo_Strategy.is_valid_property, hv]
    simp
  · intro k v hv
    rw [Set_Strategy.is_valid_property, hv]
    simp
  · exact prep_mem_general rfl (fun n v rest => rfl) (fun k v rest => rfl)
  · exact prep_mem_general rfl (fun n v rest => rfl) (fun k v rest => rfl)
  · exact prep_mem_general rfl (fun n v rest => rfl) (fun k v rest => rfl)

/-- Witness for C5 at a concrete falsy input. -/
theorem c5_witness :
    FromTo_Strategy.is_valid_property "opacity" (vInt 0) = false ∧
    Set_Strategy.is_valid_property "opacity" (vString "0") = false ∧
    (∃ v, (PHPKey.s "x", v) ∈ ([(PHPKey.s "x", vInt 5)] : List (PHPKey × PHPValue)) ∧
      FromTo_Strategy.is_valid_property "x" v = true) :=
  ⟨c5_falsy_properties_omitted.1 "opacity" (vInt 0) (by decide),
   c5_falsy_properties_omitted.2.1 "opacity" (vString "0") (by decide),
   c5_falsy_properties_omitted.2.2.1 [(PHPKey.s "x", vInt 5)]
     [(PHPKey.s "x", FromTo_Strategy.sanitize_property_value "x" (vInt 5))] rfl
     "x" (FromTo_Strategy.sanitize_property_value "x" (vInt 5)) (List.mem_singleton.mpr rfl)⟩

/-- C8.  The `Animation_Config` constructor raises `TypeError` for a
wrongly-typed `type` value: `sanitize_type` declares a `string` parameter
and `strict_types=1` rejects the integer instead of coercing it to the
documented default `to`. -/
theorem c8_config_constructor_throws :
    Animation_Config.mk [(PHPKey.s "type", vInt 123)] = Except.error PhpError.typeError := rfl

/-- C4 (counterexample).  A valid serialized configuration that omits the
optional timing members does not round-trip: `to_array` materializes
`delay`, `repeat`, `yoyo` and `selector`, so the result is not deep-equal
to the input. -/
theorem c4_roundtrip_counterexample :
    Animation_Validator.validate c4Input = Except.ok (true, []) ∧
    ∃ cfg, Animation_Config.mk c4Input = Except.ok cfg ∧
      deepEq (Animation_Config.to_array cfg) (vArray c4Input) = false :=
  ⟨rfl, _, rfl, rfl⟩

/-- C4 (amended).  The round trip is lossless for valid configurations
that are fully explicit: every `to_array` key present, `type`/`trigger`/
`ease` allow-listed, `duration ≥ 0.1`, `delay ≥ 0`, `repeat` a
non-negative integer, and a selector that is null or a non-falsy string.
(Valid configurations omitting optional members, or with `duration`
below 0.1, are not round-tripped — see the counterexample.) -/
theorem c4_roundtrip_amended (s : ConfigShape)
    (hty : Animation_Config.allowedTypes.contains s.ty = true)
    (htr : Animation_Config.allowedTriggers.contains s.tr = true)
    (hes : Animation_Config.allowedEases.contains s.es = true)
    (hdur : 1/10 ≤ s.dur)
    (hdl : 0 ≤ s.dl)
    (hrp : 0 ≤ s.rp)
    (hsel : selOk s.sel = true) :
    ∃ cfg, Animation_Config.mk (shapePhp s) = Except.ok cfg ∧
      Animation_Config.to_array cfg = vArray (shapePhp s) := by
  obtain ⟨en, ty, tr, props, dur, dl, rp, yo, es, sel⟩ := s
  have h1 : phpTruthy (vBool en) = en := by cases en <;> rfl
  have h2 : Animation_Config.sanitize_type ty = ty := by
    rw [Animation_Config.sanitize_type, if_pos hty]
  have h3 : Animation_Config.sanitize_trigger tr = tr := by
    rw [Animation_Config.sanitize_trigger, if_pos htr]
  have h4 : Animation_Config.sanitize_ease es = es := by
    rw [Animation_Config.sanitize_ease, if_pos hes]
  have h5 : phpTruthy (vBool yo) = yo := by cases yo <;> rfl
  cases sel with
  | none =>
    refine ⟨⟨en, ty, tr, props, dur, dl, rp, yo, es, none⟩, ?_, rfl⟩
    show Except.ok
      (⟨phpTruthy (vBool en), Animation_Config.sanitize_type ty,
        Animation_Config.sanitize_trigger tr, props,
        max (1/10) dur, max 0 dl, max 0 rp, phpTruthy (vBool yo),
        Animation_Config.sanitize_ease es, none⟩ : AnimationConfig) = _
    rw [h1, h2, h3, h4, h5, max_eq_right hdur, max_eq_right hdl, max_eq_right hrp]
  | some st =>
    have hne : phpEmptyVal (vString st) = false := by
      have : (!(decide (st = "") || decide (st = "0"))) = true := hsel
      rw [Bool.not_eq_true'] at this
      exact this
    refine ⟨⟨en, ty, tr, props, dur, dl, rp, yo, es, some st⟩, ?_, rfl⟩
    show Except.ok
      (⟨phpTruthy (vBool en), Animation_Config.sanitize_type ty,
        Animation_Config.sanitize_trigger tr, props,
        max (1/10) dur, max 0 dl, max 0 rp, phpTruthy (vBool yo),
        Animation_Config.sanitize_ease es,
        if phpEmptyVal (vString st) = true then none
        else some (phpToString (vString st))⟩ : AnimationConfig) = _
    rw [h1, h2, h3, h4, h5, max_eq_right hdur, max_eq_right hdl, max_eq_right hrp, hne]
    rfl

/-- Witness for the amended C4 theorem at a concrete fully-explicit
configuration. -/
theorem c4_witness :
    ∃ cfg,
      Animation_Config.mk (shapePhp ⟨true, "fromTo", "click",
          [(PHPKey.s "opacity", vFloat (1/2))], 2, 1, 3, true, "none", some ".box"⟩)
        = Except.ok cfg ∧
      Animation_Config.to_array cfg = vArray (shapePhp ⟨true, "fromTo", "click",
          [(PHPKey.s "opacity", vFloat (1/2))], 2, 1, 3, true, "none", some ".box"⟩) :=
  c4_roundtrip_amended ⟨true, "fromTo", "click", [(PHPKey.s "opacity", vFloat (1/2))],
    2, 1, 3, true, "none", some ".box"⟩
    (by decide) (by decide) (by decide) (by decide) (by decide) (by decide) (by decide)

/-- Witness instantiating the amended C9 characterization at a concrete
selector. -/
theorem c9_witness :
    Property_Validator.validate_css_selector "#hero .title" = true :=
  (c9_selector_safety_amended.1 "#hero .title").mpr
    ⟨by decide, by decide, by decide, by decide⟩
